import Mathlib

/-!
Verification of the forecasting orchestration service in `src/app.py`
(`validate_demand_input`, `predict_regressor`, `predict_demand`,
`validate_supplier_performance_input`, `predict_supplier_performance`).

The Python service is shallowly embedded: timestamps are modelled as whole
days (an `Int` day number, as all series use daily frequency), numbers as
`ℚ`, JSON cell values as an inductive `CellVal` distinguishing an absent
key, an explicit null, a numeric value and a non-numeric value, and the
HTTP outcome as `ApiResult` (a 400-class response, a 500-class response,
or a success payload).  The external Prophet engine is opaque: it is
modelled from the spec as a record of deterministic prediction functions
(`Engine`), while everything the repository's own code does around it —
validation, data-quality checks, regressor resolution, frame assembly,
clamping, response assembly — is translated directly from the source.
-/

namespace Proph

/-! ## Basic list helpers (pandas `max`/`min`/`std` over a column) -/

/-- Maximum of a list of day numbers (`df["ds"].max()`); 0 on the empty
list, which the pipelines never hit on the paths where it is used. -/
def listMax : List Int → Int
  | [] => 0
  | x :: xs => xs.foldl max x

/-- Minimum of a list of day numbers (`df["ds"].min()`). -/
def listMin : List Int → Int
  | [] => 0
  | x :: xs => xs.foldl min x

lemma le_foldl_max (xs : List Int) (a : Int) : a ≤ xs.foldl max a := by
  induction xs generalizing a with
  | nil => exact le_refl a
  | cons y ys ih => exact le_trans (le_max_left a y) (ih (max a y))

lemma mem_le_foldl_max (xs : List Int) (a : Int) : ∀ x ∈ xs, x ≤ xs.foldl max a := by
  induction xs generalizing a with
  | nil => intro x hx; cases hx
  | cons y ys ih =>
    intro x hx
    rcases List.mem_cons.mp hx with h | h
    · subst h
      exact le_trans (le_max_right a x) (le_foldl_max ys (max a x))
    · exact ih (max a y) x h

/-- Every member of a list is bounded by `listMax`. -/
lemma mem_le_listMax (l : List Int) : ∀ x ∈ l, x ≤ listMax l := by
  cases l with
  | nil => intro x hx; cases hx
  | cons a xs =>
    intro x hx
    rcases List.mem_cons.mp hx with h | h
    · subst h; exact le_foldl_max xs x
    · exact mem_le_foldl_max xs a x h

lemma foldl_min_le (xs : List Int) (a : Int) : xs.foldl min a ≤ a := by
  induction xs generalizing a with
  | nil => exact le_refl a
  | cons y ys ih => exact le_trans (ih (min a y)) (min_le_left a y)

/-- `listMin` is bounded by the head (used for span nonnegativity). -/
lemma listMin_le_head (a : Int) (xs : List Int) : listMin (a :: xs) ≤ a := by
  unfold listMin
  exact foldl_min_le xs a

lemma listMin_le_listMax (a : Int) (xs : List Int) :
    listMin (a :: xs) ≤ listMax (a :: xs) := by
  exact le_trans (listMin_le_head a xs) (le_foldl_max xs a)

/-! ## JSON cell values -/

/-- Value stored under one key of one historical-data record.  `missing`
is an absent key (a `NaN` once the records are assembled into a pandas
frame), `null` an explicit JSON null (also `NaN` in the frame), `num` a
numeric value and `nonNum` a non-numeric value (e.g. a string) that
`pd.to_numeric(errors="coerce")` would turn into `NaN`. -/
inductive CellVal
  | missing
  | null
  | num (q : ℚ)
  | nonNum
deriving DecidableEq, Repr

/-- `pd.isnull` on the frame cell: absent keys and nulls are `NaN`. -/
def CellVal.isNull : CellVal → Bool
  | .missing => true
  | .null => true
  | _ => false

/-- The cell holds an actual number. -/
def CellVal.isNum : CellVal → Bool
  | .num _ => true
  | _ => false

/-- The cell holds a non-numeric value (`pd.to_numeric` coerces it to `NaN`). -/
def CellVal.isNonNum : CellVal → Bool
  | .nonNum => true
  | _ => false

/-- The key is absent from the record. -/
def CellVal.isMissing : CellVal → Bool
  | .missing => true
  | _ => false

/-! ## Requests -/

/-- One element of `historicalData`.  `date` is `none` when the `date`
key is absent (its parsed value is a day number otherwise); the metric
cells cover both pipelines, since a record may carry any subset of keys. -/
structure HistoricalPoint where
  date : Option Int
  demand : CellVal
  mti : CellVal
  inflation : CellVal
  qualityRating : CellVal
  leadTimeReliability : CellVal
  locationId : Option String
deriving DecidableEq, Repr

/-- A top-level request field as the validator sees it: absent, present
with the wrong JSON type, or present with the expected type. -/
inductive FieldVal (α : Type)
  | missing
  | wrongType
  | val (a : α)
deriving DecidableEq, Repr

/-- The optional `futureRegressors` object of a demand request. -/
structure FutureRegs where
  mti : Option (List ℚ)
  inflation : Option (List ℚ)
deriving DecidableEq, Repr

/-- Body of a `POST /predict/demand` request. -/
structure DemandRequest where
  historicalData : FieldVal (List HistoricalPoint)
  futurePeriods : FieldVal Nat
  locationId : Option String
  modelId : Option String
  futureRegressors : Option FutureRegs
deriving Repr

/-- Body of a `POST /predict/supplier-performance` request. -/
structure SupplierRequest where
  historicalData : FieldVal (List HistoricalPoint)
  futurePeriods : FieldVal Nat
  supplierId : FieldVal String
deriving Repr

/-! ## Input validators (`validate_demand_input`,
`validate_supplier_performance_input`) -/

/-- Issues for one required top-level field, in the loop of
`validate_demand_input` / `validate_supplier_performance_input`.  The
wrong-type message is abbreviated (the source also names the expected and
actual Python types). -/
def fieldIssues {α : Type} (name : String) (f : FieldVal α) : List String :=
  match f with
  | .missing => ["Missing required field: " ++ name]
  | .wrongType => ["Invalid type for " ++ name]
  | .val _ => []

/-- Per-point required-field issues for the first `historicalData`
element of a demand request (`required_point_fields = ["date", "demand"]`). -/
def demandPointIssues (p : HistoricalPoint) : List String :=
  (if p.date = none then ["Missing required field in historicalData points: date"] else []) ++
    (if p.demand.isMissing then ["Missing required field in historicalData points: demand"] else [])

/-- Per-point required-field issues for the first `historicalData`
element of a supplier request
(`required_point_fields = ["date", "qualityRating", "leadTimeReliability"]`). -/
def supplierPointIssues (p : HistoricalPoint) : List String :=
  (if p.date = none then ["Missing required field in historicalData points: date"] else []) ++
    (if p.qualityRating.isMissing then
      ["Missing required field in historicalData points: qualityRating"] else []) ++
    (if p.leadTimeReliability.isMissing then
      ["Missing required field in historicalData points: leadTimeReliability"] else [])

/-- `validate_demand_input` (src/app.py lines 24-50): required top-level
fields are only `historicalData : list` and `futurePeriods : int`; then,
if no issue so far, an emptiness check on `historicalData`; then, if
still no issue, the per-point field check on the first element. -/
def validate_demand_input (d : DemandRequest) : List String :=
  let issues := fieldIssues "historicalData" d.historicalData ++
    fieldIssues "futurePeriods" d.futurePeriods
  let issues := match d.historicalData with
    | .val [] => if issues = [] then issues ++ ["historicalData array is empty"] else issues
    | _ => issues
  match d.historicalData with
  | .val (p :: _) => if issues = [] then issues ++ demandPointIssues p else issues
  | _ => issues

/-- `validate_supplier_performance_input` (src/app.py lines 388-418):
required fields `historicalData : list`, `futurePeriods : int`,
`supplierId : str`, then the same emptiness and first-point checks. -/
def validate_supplier_performance_input (d : SupplierRequest) : List String :=
  let issues := fieldIssues "historicalData" d.historicalData ++
    fieldIssues "futurePeriods" d.futurePeriods ++
    fieldIssues "supplierId" d.supplierId
  let issues := match d.historicalData with
    | .val [] => if issues = [] then issues ++ ["historicalData array is empty"] else issues
    | _ => issues
  match d.historicalData with
  | .val (p :: _) => if issues = [] then issues ++ supplierPointIssues p else issues
  | _ => issues

/-! ## Data-quality analyzer: density and gap detection -/

/-- Data density (both routes): `len(df) / ((max(ds) - min(ds)).days + 1)`.
`n` is the number of points (rows), `dates` the parsed, non-null
timestamps (pandas `max`/`min` skip `NaT`).  Duplicate dates are counted
individually, exactly as in the source. -/
def density (n : Nat) (dates : List Int) : ℚ :=
  (n : ℚ) / (((listMax dates - listMin dates : ℤ) : ℚ) + 1)

/-- Number of gaps between consecutive points of a sorted series whose
delta exceeds 7 days: `gaps = df_sorted["ds"].diff(); gaps[gaps > pd.Timedelta(days=7)]`. -/
def countGaps : List Int → Nat
  | a :: b :: rest => (if 7 < b - a then 1 else 0) + countGaps (b :: rest)
  | _ => 0

/-- The non-null timestamp column `df["ds"]` of a point list. -/
def dsCol (pts : List HistoricalPoint) : List Int :=
  pts.filterMap (fun p => p.date)

/-- `countGaps` counts exactly the consecutive pairs of the series whose
delta exceeds 7 days. -/
lemma countGaps_eq_filter_length (l : List Int) :
    countGaps l = ((l.zip l.tail).filter (fun p => decide (7 < p.2 - p.1))).length := by
  induction l with
  | nil => rfl
  | cons a l ih =>
    cases l with
    | nil => rfl
    | cons b rest =>
      show (if 7 < b - a then 1 else 0) + countGaps (b :: rest) = _
      rw [ih]
      simp only [List.tail_cons, List.zip_cons_cons, List.filter_cons]
      by_cases h : 7 < b - a
      · simp [h, Nat.add_comm]
      · simp [h]

/-- A series whose consecutive deltas are all at most 7 days has no gaps. -/
lemma countGaps_of_chain (l : List Int) (h : List.Chain' (fun a b => b - a ≤ 7) l) :
    countGaps l = 0 := by
  induction l with
  | nil => rfl
  | cons a l ih =>
    cases l with
    | nil => rfl
    | cons b rest =>
      rcases List.chain'_cons.mp h with ⟨hab, htail⟩
      show (if 7 < b - a then 1 else 0) + countGaps (b :: rest) = 0
      rw [if_neg (not_lt.mpr hab), ih htail]

/-! ## The external forecasting engine

Modelled from the spec: the Forecasting Engine is an external collaborator
exposing `fit(series, optional exogenous columns) -> fitted model` and
`predict(horizon rows) -> forecast rows {timestamp, point estimate, lower
bound, upper bound, trend component, seasonal component}`, assumed
deterministic for a single fit/predict cycle.  Its statistical content is
opaque, so it is a record of arbitrary functions from the fit inputs and a
target timestamp to a forecast row. -/

/-- One row of a Prophet forecast frame: the columns the service reads
(`yhat`, `yhat_lower`, `yhat_upper`, `trend`, `yearly`). -/
structure EngineRow where
  yhat : ℚ
  yhat_lower : ℚ
  yhat_upper : ℚ
  trend : ℚ
  yearly : ℚ
deriving DecidableEq, Repr

/-- One row of the frame handed to `predict_regressor`: a timestamp
(`none` = `NaT`), the regressor cell, and the optional `locationId` cell. -/
structure RegRow where
  ds : Option Int
  y : CellVal
  loc : Option String
deriving DecidableEq, Repr

/-- Modelled from the spec: the opaque, deterministic external engine.
`regYhat` is the point prediction of a model fitted on a single-regressor
frame; `demandRow` the forecast row of the demand model fitted on the full
history plus resolved regressors; `supplierRow` the forecast row of a
supplier sub-model fitted on one cleaned metric series with the given
`changepoint_prior_scale`. -/
structure Engine where
  regYhat : List (Option Int × CellVal) → Int → ℚ
  demandRow : List HistoricalPoint → List (String × List ℚ) → Int → EngineRow
  supplierRow : List (Option Int × ℚ) → ℚ → Int → EngineRow

/-- Modelled from the spec: Prophet's `make_future_dataframe(periods,
freq="D", include_history)` — the `periods` daily timestamps strictly
after the last history date, preceded, when `include_history` is set, by
the deduplicated sorted history dates. -/
def make_future_dataframe (historyDates : List Int) (periods : Nat)
    (includeHistory : Bool) : List Int :=
  let last := listMax historyDates
  let newDates := (List.range periods).map (fun i : Nat => last + 1 + (i : Int))
  if includeHistory then (historyDates.dedup.insertionSort (· ≤ ·)) ++ newDates else newDates

/-! ## Regressor projector (`predict_regressor`, src/app.py lines 76-104) -/

/-- The location filter at the head of `predict_regressor` (src/app.py
lines 86-89): `if location_id and "locationId" in historical_df.columns`
— note an empty-string `location_id` is falsy and disables the filter. -/
def locationFilter (rows : List RegRow) (hasLocCol : Bool)
    (location_id : Option String) : List RegRow :=
  match location_id with
  | some lid => if lid ≠ "" ∧ hasLocCol then rows.filter (fun r => r.loc = some lid) else rows
  | none => rows

/-- `predict_regressor(historical_df, regressor_name, periods, location_id)`:
filter to one location when a non-empty `location_id` is given and the
frame has a `locationId` column, fit Prophet on `{ds, y}`, predict over
`make_future_dataframe(periods)` (history included), and keep only the
rows strictly after the last historical timestamp.  Prophet's own
`ValueError`s (fewer than 2 non-NaN rows, `NaN` in `ds`, unparseable `y`)
are surfaced as `Except.error`; the route maps them to a 400 response. -/
def predict_regressor (e : Engine) (rows : List RegRow) (hasLocCol : Bool)
    (periods : Nat) (location_id : Option String) : Except String (List ℚ) :=
  let df : List RegRow := locationFilter rows hasLocCol location_id
  if (df.filter (fun r => !r.y.isNull)).length < 2 then
    Except.error "Dataframe has less than 2 non-NaN rows."
  else if df.any (fun r => r.ds.isNone) then
    Except.error "Found NaN in column ds."
  else if df.any (fun r => r.y.isNonNum) then
    Except.error "Unable to parse y"
  else
    let dsList := df.filterMap (fun r => r.ds)
    let lastDate := listMax dsList
    let future := make_future_dataframe dsList periods true
    Except.ok ((future.filter (fun d => lastDate < d)).map
      (fun d => e.regYhat (df.map (fun r => (r.ds, r.y))) d))

/-- A successful regressor projection always returns exactly `periods`
values: `make_future_dataframe` appends the `periods` daily dates strictly
after the last history date, and the filter drops exactly the (re-emitted)
history, every element of which is at most the maximum. -/
lemma predict_regressor_length (e : Engine) (rows : List RegRow) (hasLocCol : Bool)
    (periods : Nat) (location_id : Option String) (vs : List ℚ)
    (h : predict_regressor e rows hasLocCol periods location_id = Except.ok vs) :
    vs.length = periods := by
  simp only [predict_regressor] at h
  generalize locationFilter rows hasLocCol location_id = df at h
  by_cases h1 : (df.filter (fun r => !r.y.isNull)).length < 2
  · rw [if_pos h1] at h; cases h
  rw [if_neg h1] at h
  by_cases h2 : df.any (fun r => r.ds.isNone)
  · rw [if_pos h2] at h; cases h
  rw [if_neg h2] at h
  by_cases h3 : df.any (fun r => r.y.isNonNum)
  · rw [if_pos h3] at h; cases h
  rw [if_neg h3] at h
  simp only [Except.ok.injEq] at h
  subst h
  rw [List.length_map]
  set dsList := df.filterMap (fun r => r.ds) with hds
  simp only [make_future_dataframe, ite_true]
  rw [List.filter_append, List.length_append]
  have hhist : ((dsList.dedup.insertionSort (· ≤ ·)).filter
      (fun d => decide (listMax dsList < d))).length = 0 := by
    rw [List.length_eq_zero, List.filter_eq_nil_iff]
    intro d hd
    have hmem : d ∈ dsList := by
      have := (List.perm_insertionSort (· ≤ ·) dsList.dedup).mem_iff.mp hd
      exact List.mem_dedup.mp this
    simp only [decide_eq_true_eq, not_lt]
    exact mem_le_listMax dsList d hmem
  rw [hhist, Nat.zero_add]
  have hnew : ∀ d ∈ (List.range periods).map
      (fun i : Nat => listMax dsList + 1 + (i : Int)), decide (listMax dsList < d) = true := by
    intro d hd
    rcases List.mem_map.mp hd with ⟨i, _, hi⟩
    subst hi
    simp only [decide_eq_true_eq]
    omega
  rw [List.filter_eq_self.mpr hnew, List.length_map, List.length_range]

/-! ## Route outcomes and responses -/

/-- Outcome of one request: a 400-class response with its `error` field, a
500-class response with its `error` field, or the success payload. -/
inductive ApiResult (α : Type)
  | badRequest (error : String)
  | serverError (error : String)
  | ok (resp : α)
deriving DecidableEq, Repr

/-- One row of `forecast` / `qualityForecast` / `leadTimeForecast` in a
response body. -/
structure OutRow where
  date : Int
  value : ℚ
  lower : ℚ
  upper : ℚ
deriving DecidableEq, Repr

/-- Successful `/predict/demand` response body.  The raw forecast rows are
kept (their decomposition columns feed the strength metrics); the `plot`
and the float formatting of `metadata` are outside the model, and the
gap events that the source only logs are recorded in `gapsRecorded`. -/
structure DemandResponse where
  forecast : List (Int × EngineRow)
  locationId : String
  modelId : String
  futureRegressorsMti : List ℚ
  futureRegressorsInflation : List ℚ
  dataPoints : Nat
  dateRangeStart : Int
  dateRangeEnd : Int
  regressorsUsed : List String
  futurePeriods : Nat
  generatedRegressors : List String
  gapsRecorded : Nat
deriving DecidableEq, Repr

/-- Successful `/predict/supplier-performance` response body.  The raw
per-branch forecast frames are kept for the strength metrics, and the
events that the source only logs are recorded in `warnings` /
`gapsRecorded`. -/
structure SupplierResponse where
  supplierId : String
  qualityForecast : List OutRow
  leadTimeForecast : List OutRow
  qualityDf : List (Int × EngineRow)
  leadTimeDf : List (Int × EngineRow)
  dataPoints : Nat
  dateRangeStart : Int
  dateRangeEnd : Int
  futurePeriods : Nat
  warnings : List String
  gapsRecorded : Nat
deriving DecidableEq, Repr

/-! ## Demand pipeline (`predict_demand`, src/app.py lines 107-385) -/

/-- The `mti` column exists in the frame: some record carries the key. -/
def hasMtiCol (pts : List HistoricalPoint) : Bool :=
  pts.any (fun p => !p.mti.isMissing)

/-- The `inflation` column exists in the frame. -/
def hasInflationCol (pts : List HistoricalPoint) : Bool :=
  pts.any (fun p => !p.inflation.isMissing)

/-- The `locationId` column exists in the frame. -/
def hasLocationCol (pts : List HistoricalPoint) : Bool :=
  pts.any (fun p => !p.locationId.isNone)

/-- `df[["ds", "mti"]].drop_duplicates()` mapped into regressor rows
(src/app.py line 214): all MTI data regardless of location, with
duplicate `(ds, mti)` pairs collapsed. -/
def mtiRows (pts : List HistoricalPoint) : List RegRow :=
  ((pts.map (fun p => (p.date, p.mti))).dedup).map (fun x => ⟨x.1, x.2, none⟩)

/-- Regressor rows of the full frame for the inflation projection
(src/app.py line 226): `ds`, `inflation` and the `locationId` cell. -/
def inflationRows (pts : List HistoricalPoint) : List RegRow :=
  pts.map (fun p => ⟨p.date, p.inflation, p.locationId⟩)

/-- MTI handling (src/app.py lines 202-218): when the `mti` column is
declared, caller-supplied `futureRegressors.mti` is used verbatim,
otherwise the engine projects the deduplicated global MTI series;
the result is the `future_regressors` entries this step contributes. -/
def resolve_mti_regressor (e : Engine) (pts : List HistoricalPoint)
    (futureRegressors : Option FutureRegs) (future_periods : Nat) :
    Except String (List (String × List ℚ)) :=
  if hasMtiCol pts then
    match futureRegressors with
    | some fr =>
      match fr.mti with
      | some vs => Except.ok [("mti", vs)]
      | none => (predict_regressor e (mtiRows pts) false future_periods none).map
          (fun vs => [("mti", vs)])
    | none => (predict_regressor e (mtiRows pts) false future_periods none).map
        (fun vs => [("mti", vs)])
  else Except.ok []

/-- Inflation handling (src/app.py lines 220-228): when the `inflation`
column is declared, the engine always projects it for the request's
location — caller-supplied future values are never consulted. -/
def resolve_inflation_regressor (e : Engine) (pts : List HistoricalPoint)
    (location_id : String) (future_periods : Nat) :
    Except String (List (String × List ℚ)) :=
  if hasInflationCol pts then
    (predict_regressor e (inflationRows pts) (hasLocationCol pts) future_periods
      (some location_id)).map (fun vs => [("inflation", vs)])
  else Except.ok []

/-- The `regressors_added` list (src/app.py lines 199, 205, 223): `"mti"`
then `"inflation"`, each when its column is declared. -/
def regressorsAdded (pts : List HistoricalPoint) : List String :=
  (if hasMtiCol pts then ["mti"] else []) ++ (if hasInflationCol pts then ["inflation"] else [])

/-- `future_regressors.get(name, [])` on the assembled entry list. -/
def lookupRegressor (name : String) (entries : List (String × List ℚ)) : List ℚ :=
  ((entries.find? (fun kv => kv.1 = name)).map (fun kv => kv.2)).getD []

/-- The `POST /predict/demand` route handler.  Control flow mirrors the
source: validation (400), `data["locationId"]` / `data["modelId"]` —
which on a missing key raise `KeyError` straight to the outermost handler,
a 500 "Fatal error" —, the null / non-numeric demand checks (400), the
density gate (400), gap logging, regressor resolution (Prophet errors
become a 400 "Data processing error" via `except ValueError`), the main
fit — where Prophet rejects fewer than two rows, `NaT` timestamps and
unparseable or `NaN` regressor columns with a `ValueError` (400) —, the
future-frame assembly — where a length-mismatched caller-supplied
regressor array makes the pandas column assignment raise (400) —, and
response assembly. -/
def predict_demand (e : Engine) (req : DemandRequest) : ApiResult DemandResponse :=
  if validate_demand_input req ≠ [] then ApiResult.badRequest "Invalid input data"
  else
    match req.locationId with
    | none => ApiResult.serverError "Fatal error"
    | some location_id =>
      match req.modelId with
      | none => ApiResult.serverError "Fatal error"
      | some model_id =>
        match req.historicalData, req.futurePeriods with
        | FieldVal.val pts, FieldVal.val future_periods =>
          if pts.any (fun p => p.demand.isNull) then
            ApiResult.badRequest "Missing demand values detected"
          else if pts.any (fun p => p.demand.isNonNum) then
            ApiResult.badRequest "Non-numeric demand values detected"
          else if density pts.length (dsCol pts) < 7/10 then
            ApiResult.badRequest "Insufficient data density"
          else
            match resolve_mti_regressor e pts req.futureRegressors future_periods with
            | Except.error _ => ApiResult.badRequest "Data processing error"
            | Except.ok mtiEntries =>
              match resolve_inflation_regressor e pts location_id future_periods with
              | Except.error _ => ApiResult.badRequest "Data processing error"
              | Except.ok infEntries =>
                let future_regressors := mtiEntries ++ infEntries
                let regressors_added := regressorsAdded pts
                if pts.length < 2 then ApiResult.badRequest "Data processing error"
                else if pts.any (fun p => p.date.isNone) then
                  ApiResult.badRequest "Data processing error"
                else if hasMtiCol pts ∧ pts.any (fun p => !p.mti.isNum) then
                  ApiResult.badRequest "Data processing error"
                else if hasInflationCol pts ∧ pts.any (fun p => !p.inflation.isNum) then
                  ApiResult.badRequest "Data processing error"
                else
                  let future := make_future_dataframe (dsCol pts) future_periods false
                  if future_regressors.any (fun kv => kv.2.length ≠ future.length) then
                    ApiResult.badRequest "Data processing error"
                  else
                    ApiResult.ok
                      { forecast := future.map (fun d => (d, e.demandRow pts future_regressors d))
                        locationId := location_id
                        modelId := model_id
                        futureRegressorsMti := lookupRegressor "mti" future_regressors
                        futureRegressorsInflation := lookupRegressor "inflation" future_regressors
                        dataPoints := pts.length
                        dateRangeStart := listMin (dsCol pts)
                        dateRangeEnd := listMax (dsCol pts)
                        regressorsUsed := regressors_added
                        futurePeriods := future_periods
                        generatedRegressors := future_regressors.map (fun kv => kv.1)
                        gapsRecorded := countGaps ((dsCol pts).insertionSort (· ≤ ·)) }
        | _, _ => ApiResult.serverError "Fatal error"

/-! ## Supplier-performance pipeline (`predict_supplier_performance`,
src/app.py lines 421-687) -/

/-- `min(1.0, max(0.0, x))`: the clamp applied to every supplier forecast
value and bound (src/app.py lines 526-528 and 581-583). -/
def clamp01 (x : ℚ) : ℚ := min 1 (max 0 x)

lemma clamp01_nonneg (x : ℚ) : 0 ≤ clamp01 x := by
  unfold clamp01
  exact le_min (by norm_num) (le_max_left 0 x)

lemma clamp01_le_one (x : ℚ) : clamp01 x ≤ 1 := min_le_left 1 (max 0 x)

/-- The defensive cleaning of one supplier metric frame (src/app.py lines
483-490 and 538-545): when nulls are present, warn and `dropna`; when,
after that, non-numeric values are present, warn, coerce them to `NaN`
and `dropna` again.  Returns the cleaned `(ds, y)` rows and the recorded
warnings (the source logs also the null count; the tags here are fixed). -/
def clean_metric_df (label : String) (rows : List (Option Int × CellVal)) :
    List (Option Int × ℚ) × List String :=
  let w1 : List String := if rows.any (fun r => r.2.isNull) then
    ["Found null values in " ++ label ++ " data"] else []
  let rows1 : List (Option Int × CellVal) := if rows.any (fun r => r.2.isNull) then
    rows.filter (fun r => !r.2.isNull) else rows
  let w2 : List String := if rows1.any (fun r => r.2.isNonNum) then
    ["Found non-numeric values in " ++ label ++ " data"] else []
  let rows2 : List (Option Int × ℚ) := rows1.filterMap
    (fun r => match r.2 with | CellVal.num q => some (r.1, q) | _ => none)
  (rows2, w1 ++ w2)

/-- The `POST /predict/supplier-performance` route handler.  Control flow
mirrors the source: validation (400), density check — here only a logged
warning —, gap logging, then for each of `qualityRating` and
`leadTimeReliability` a defensive cleaning step followed by its own
Prophet fit/predict — where Prophet rejects fewer than two cleaned rows
or `NaT` timestamps with a `ValueError` (400) —, clamping of every output
row into `[0, 1]`, and response assembly. -/
def predict_supplier_performance (e : Engine) (req : SupplierRequest) :
    ApiResult SupplierResponse :=
  if validate_supplier_performance_input req ≠ [] then ApiResult.badRequest "Invalid input data"
  else
    match req.historicalData, req.futurePeriods, req.supplierId with
    | FieldVal.val pts, FieldVal.val future_periods, FieldVal.val supplier_id =>
      let dsList := dsCol pts
      let densityWarn : List String := if density pts.length dsList < 7/10 then
        ["Low data density"] else []
      let gapCount := countGaps (dsList.insertionSort (· ≤ ·))
      let gapWarn : List String := if 0 < gapCount then ["Found gaps > 7 days"] else []
      let qualityClean := clean_metric_df "quality" (pts.map (fun p => (p.date, p.qualityRating)))
      if qualityClean.1.length < 2 then ApiResult.badRequest "Data processing error"
      else if qualityClean.1.any (fun r => r.1.isNone) then
        ApiResult.badRequest "Data processing error"
      else
        let qualityFuture := make_future_dataframe (qualityClean.1.filterMap
          (fun r => r.1)) future_periods false
        let qualityDf := qualityFuture.map (fun d => (d, e.supplierRow qualityClean.1 (1/20) d))
        let leadClean := clean_metric_df "lead time"
          (pts.map (fun p => (p.date, p.leadTimeReliability)))
        if leadClean.1.length < 2 then ApiResult.badRequest "Data processing error"
        else if leadClean.1.any (fun r => r.1.isNone) then
          ApiResult.badRequest "Data processing error"
        else
          let leadFuture := make_future_dataframe (leadClean.1.filterMap
            (fun r => r.1)) future_periods false
          let leadDf := leadFuture.map (fun d => (d, e.supplierRow leadClean.1 (1/10) d))
          ApiResult.ok
            { supplierId := supplier_id
              qualityForecast := qualityDf.map (fun r =>
                ⟨r.1, clamp01 r.2.yhat, clamp01 r.2.yhat_lower, clamp01 r.2.yhat_upper⟩)
              leadTimeForecast := leadDf.map (fun r =>
                ⟨r.1, clamp01 r.2.yhat, clamp01 r.2.yhat_lower, clamp01 r.2.yhat_upper⟩)
              qualityDf := qualityDf
              leadTimeDf := leadDf
              dataPoints := pts.length
              dateRangeStart := listMin dsList
              dateRangeEnd := listMax dsList
              futurePeriods := future_periods
              warnings := densityWarn ++ gapWarn ++ qualityClean.2 ++ leadClean.2
              gapsRecorded := gapCount }
    | _, _, _ => ApiResult.serverError "Fatal error"

/-! ## Metrics calculator (seasonality / trend strength)

The strength computation reads the decomposition columns of the forecast
frame(s) of a successful response: `yearly`, `trend` and `yhat`.  pandas
`.std()` is the sample standard deviation (denominator `n - 1`), which is
`NaN` — so fails `pd.notnull` — on fewer than two rows. -/

/-- The `yhat` column of a forecast frame. -/
def yhatCol (f : List (Int × EngineRow)) : List ℚ := f.map (fun r => r.2.yhat)

/-- The `yearly` (seasonal) column of a forecast frame. -/
def yearlyCol (f : List (Int × EngineRow)) : List ℚ := f.map (fun r => r.2.yearly)

/-- The `trend` column of a forecast frame. -/
def trendCol (f : List (Int × EngineRow)) : List ℚ := f.map (fun r => r.2.trend)

/-- Mean of a column (0 on the empty column, unused there). -/
def meanQ (xs : List ℚ) : ℚ := xs.sum / (xs.length : ℚ)

/-- Numerically the square of pandas `.std(ddof=1)`: the sample variance. -/
def varQ (xs : List ℚ) : ℚ :=
  ((xs.map (fun x => (x - meanQ xs) ^ 2)).sum) / ((xs.length : ℚ) - 1)

/-- pandas `.std()` of a column, as a real number. -/
noncomputable def sampleStd (xs : List ℚ) : ℝ := Real.sqrt ((varQ xs : ℚ) : ℝ)

/-- `pd.notnull(xs.std())`: the sample standard deviation over finite
values is defined exactly when the column has at least two rows. -/
def std_notnull (xs : List ℚ) : Bool := decide (2 ≤ xs.length)

lemma varQ_nonneg (xs : List ℚ) (h : 2 ≤ xs.length) : 0 ≤ varQ xs := by
  unfold varQ
  apply div_nonneg
  · apply List.sum_nonneg
    intro x hx
    rcases List.mem_map.mp hx with ⟨y, _, hy⟩
    subst hy
    positivity
  · have : (2 : ℚ) ≤ (xs.length : ℚ) := by exact_mod_cast h
    linarith

/-- The std of a column is positive iff the sample variance is. -/
lemma sampleStd_pos_iff (xs : List ℚ) : 0 < sampleStd xs ↔ 0 < varQ xs := by
  unfold sampleStd
  rw [Real.sqrt_pos]
  exact_mod_cast Iff.rfl

lemma sampleStd_nonneg (xs : List ℚ) : 0 ≤ sampleStd xs := Real.sqrt_nonneg _

section
open Classical

/-- Demand-route strength of one component (src/app.py lines 303-324):
`abs(component_std / yhat_std)` when both stds are defined and
`yhat_std > 0`, else `0.0`. -/
noncomputable def demand_strength (comp yhat : List ℚ) : ℝ :=
  if std_notnull comp ∧ std_notnull yhat ∧ 0 < sampleStd yhat then
    |sampleStd comp / sampleStd yhat|
  else 0

/-- The demand response's reported strength (src/app.py lines 334-335):
`float(min(strength, 1.0))`. -/
noncomputable def demand_metadata_strength (comp yhat : List ℚ) : ℝ :=
  min (demand_strength comp yhat) 1

/-- Supplier-route strength of one component of one branch (src/app.py
lines 600-618): `min(1.0, abs(component_std / yhat_std))` when both stds
are defined and `yhat_std > 0`, else `0.0`. -/
noncomputable def supplier_strength (comp yhat : List ℚ) : ℝ :=
  if std_notnull comp ∧ std_notnull yhat ∧ 0 < sampleStd yhat then
    min 1 |sampleStd comp / sampleStd yhat|
  else 0

end

/-- The supplier response's reported strength (src/app.py lines 620-622):
the arithmetic mean of the quality-branch and lead-time-branch strengths. -/
noncomputable def supplier_metadata_strength (qComp qYhat lComp lYhat : List ℚ) : ℝ :=
  (supplier_strength qComp qYhat + supplier_strength lComp lYhat) / 2

lemma demand_strength_nonneg (comp yhat : List ℚ) : 0 ≤ demand_strength comp yhat := by
  unfold demand_strength
  split
  · exact abs_nonneg _
  · exact le_refl 0

lemma demand_metadata_strength_nonneg (comp yhat : List ℚ) :
    0 ≤ demand_metadata_strength comp yhat :=
  le_min (demand_strength_nonneg comp yhat) (by norm_num)

lemma demand_metadata_strength_le_one (comp yhat : List ℚ) :
    demand_metadata_strength comp yhat ≤ 1 :=
  min_le_right _ 1

lemma supplier_strength_nonneg (comp yhat : List ℚ) : 0 ≤ supplier_strength comp yhat := by
  unfold supplier_strength
  split
  · exact le_min (by norm_num) (abs_nonneg _)
  · exact le_refl 0

lemma supplier_strength_le_one (comp yhat : List ℚ) : supplier_strength comp yhat ≤ 1 := by
  unfold supplier_strength
  split
  · exact min_le_left 1 _
  · norm_num

lemma supplier_metadata_strength_nonneg (qComp qYhat lComp lYhat : List ℚ) :
    0 ≤ supplier_metadata_strength qComp qYhat lComp lYhat := by
  unfold supplier_metadata_strength
  have h1 := supplier_strength_nonneg qComp qYhat
  have h2 := supplier_strength_nonneg lComp lYhat
  linarith

lemma supplier_metadata_strength_le_one (qComp qYhat lComp lYhat : List ℚ) :
    supplier_metadata_strength qComp qYhat lComp lYhat ≤ 1 := by
  unfold supplier_metadata_strength
  have h1 := supplier_strength_le_one qComp qYhat
  have h2 := supplier_strength_le_one lComp lYhat
  linarith

/-! ## Concrete engines and requests used by witnesses and counterexamples -/

/-- A concrete engine: every regressor projection is the constant 5, and
the supplier rows exercise the clamp (point 2, lower -1, upper 3). -/
def engC : Engine :=
  { regYhat := fun _ _ => 5
    demandRow := fun _ _ _ => ⟨0, 0, 0, 0, 0⟩
    supplierRow := fun _ _ _ => ⟨2, -1, 3, 0, 0⟩ }

/-- An engine whose two supplier sub-models differ (they are fitted with
different `changepoint_prior_scale`s): the quality model's seasonal
component equals its combined forecast, the lead-time model's seasonal
component is constantly zero. -/
def engSplit : Engine :=
  { regYhat := fun _ _ => 5
    demandRow := fun _ _ _ => ⟨0, 0, 0, 0, 0⟩
    supplierRow := fun series _ d =>
      if series.any (fun r => r.2 = 2) then ⟨(d : ℚ), (d : ℚ), (d : ℚ), 0, (d : ℚ)⟩
      else ⟨(d : ℚ), (d : ℚ), (d : ℚ), 0, 0⟩ }

/-- A plain demand point: a date and a numeric demand, nothing else. -/
def dPoint (d : Int) (y : ℚ) : HistoricalPoint :=
  ⟨some d, CellVal.num y, CellVal.missing, CellVal.missing, CellVal.missing,
    CellVal.missing, none⟩

/-- A demand point that also carries an `inflation` value. -/
def dPointInf (d : Int) (y infl : ℚ) : HistoricalPoint :=
  ⟨some d, CellVal.num y, CellVal.missing, CellVal.num infl, CellVal.missing,
    CellVal.missing, none⟩

/-- A demand point that also carries an `mti` value. -/
def dPointMti (d : Int) (y m : ℚ) : HistoricalPoint :=
  ⟨some d, CellVal.num y, CellVal.num m, CellVal.missing, CellVal.missing,
    CellVal.missing, none⟩

/-- A supplier point with both metric values. -/
def sPoint (d : Int) (q l : CellVal) : HistoricalPoint :=
  ⟨some d, CellVal.missing, CellVal.missing, CellVal.missing, q, l, none⟩

/-! ## Path lemmas for the two route handlers -/

lemma predict_demand_invalid (e : Engine) (req : DemandRequest)
    (hv : validate_demand_input req ≠ []) :
    predict_demand e req = ApiResult.badRequest "Invalid input data" := by
  unfold predict_demand
  rw [if_pos hv]

lemma predict_demand_missing_location (e : Engine) (req : DemandRequest)
    (hv : validate_demand_input req = []) (hloc : req.locationId = none) :
    predict_demand e req = ApiResult.serverError "Fatal error" := by
  unfold predict_demand
  rw [hv, hloc]
  simp

lemma predict_demand_missing_model (e : Engine) (req : DemandRequest) (lid : String)
    (hv : validate_demand_input req = []) (hloc : req.locationId = some lid)
    (hmod : req.modelId = none) :
    predict_demand e req = ApiResult.serverError "Fatal error" := by
  unfold predict_demand
  rw [hv, hloc, hmod]
  simp

lemma predict_demand_null_values (e : Engine) (req : DemandRequest)
    (pts : List HistoricalPoint) (fp : Nat) (lid mid : String)
    (hv : validate_demand_input req = [])
    (hh : req.historicalData = FieldVal.val pts)
    (hf : req.futurePeriods = FieldVal.val fp)
    (hloc : req.locationId = some lid) (hmod : req.modelId = some mid)
    (hnull : pts.any (fun p => p.demand.isNull) = true) :
    predict_demand e req = ApiResult.badRequest "Missing demand values detected" := by
  unfold predict_demand
  rw [hv, hloc, hmod, hh, hf]
  simp [hnull]

lemma predict_demand_nonnum_values (e : Engine) (req : DemandRequest)
    (pts : List HistoricalPoint) (fp : Nat) (lid mid : String)
    (hv : validate_demand_input req = [])
    (hh : req.historicalData = FieldVal.val pts)
    (hf : req.futurePeriods = FieldVal.val fp)
    (hloc : req.locationId = some lid) (hmod : req.modelId = some mid)
    (hnull : pts.any (fun p => p.demand.isNull) = false)
    (hnn : pts.any (fun p => p.demand.isNonNum) = true) :
    predict_demand e req = ApiResult.badRequest "Non-numeric demand values detected" := by
  unfold predict_demand
  rw [hv, hloc, hmod, hh, hf]
  simp [hnull, hnn]

lemma predict_demand_low_density (e : Engine) (req : DemandRequest)
    (pts : List HistoricalPoint) (fp : Nat) (lid mid : String)
    (hv : validate_demand_input req = [])
    (hh : req.historicalData = FieldVal.val pts)
    (hf : req.futurePeriods = FieldVal.val fp)
    (hloc : req.locationId = some lid) (hmod : req.modelId = some mid)
    (hnull : pts.any (fun p => p.demand.isNull) = false)
    (hnn : pts.any (fun p => p.demand.isNonNum) = false)
    (hdens : density pts.length (dsCol pts) < 7/10) :
    predict_demand e req = ApiResult.badRequest "Insufficient data density" := by
  unfold predict_demand
  rw [hv, hloc, hmod, hh, hf]
  simp [hnull, hnn, hdens]

/-- Success shape of the demand route: with a validator-clean request, a
present location and model, clean demand values, sufficient density,
successfully resolved regressors, a fittable frame and length-matching
future-regressor arrays, the route succeeds with the assembled response. -/
lemma predict_demand_ok (e : Engine) (req : DemandRequest)
    (pts : List HistoricalPoint) (fp : Nat) (lid mid : String)
    (mtiEntries infEntries : List (String × List ℚ))
    (hv : validate_demand_input req = [])
    (hh : req.historicalData = FieldVal.val pts)
    (hf : req.futurePeriods = FieldVal.val fp)
    (hloc : req.locationId = some lid) (hmod : req.modelId = some mid)
    (hnull : pts.any (fun p => p.demand.isNull) = false)
    (hnn : pts.any (fun p => p.demand.isNonNum) = false)
    (hdens : ¬ density pts.length (dsCol pts) < 7/10)
    (hmti : resolve_mti_regressor e pts req.futureRegressors fp = Except.ok mtiEntries)
    (hinf : resolve_inflation_regressor e pts lid fp = Except.ok infEntries)
    (h2 : ¬ pts.length < 2)
    (hdates : pts.any (fun p => p.date.isNone) = false)
    (hmclean : ¬ (hasMtiCol pts = true ∧ pts.any (fun p => !p.mti.isNum) = true))
    (hiclean : ¬ (hasInflationCol pts = true ∧ pts.any (fun p => !p.inflation.isNum) = true))
    (hlen : (mtiEntries ++ infEntries).any (fun kv =>
      kv.2.length ≠ (make_future_dataframe (dsCol pts) fp false).length) = false) :
    predict_demand e req = ApiResult.ok
      { forecast := (make_future_dataframe (dsCol pts) fp false).map
          (fun d => (d, e.demandRow pts (mtiEntries ++ infEntries) d))
        locationId := lid
        modelId := mid
        futureRegressorsMti := lookupRegressor "mti" (mtiEntries ++ infEntries)
        futureRegressorsInflation := lookupRegressor "inflation" (mtiEntries ++ infEntries)
        dataPoints := pts.length
        dateRangeStart := listMin (dsCol pts)
        dateRangeEnd := listMax (dsCol pts)
        regressorsUsed := regressorsAdded pts
        futurePeriods := fp
        generatedRegressors := (mtiEntries ++ infEntries).map (fun kv => kv.1)
        gapsRecorded := countGaps ((dsCol pts).insertionSort (· ≤ ·)) } := by
  unfold predict_demand
  rw [hv, hloc, hmod, hh, hf]
  simp [hnull, hnn, hmti, hinf, hdates, hlen, if_neg hdens, if_neg h2,
    if_neg hmclean, if_neg hiclean]
  have hm' : ¬(hasMtiCol pts = true ∧ ∃ x ∈ pts, x.mti.isNum = false) := by
    simpa using hmclean
  have hi' : ¬(hasInflationCol pts = true ∧ ∃ x ∈ pts, x.inflation.isNum = false) := by
    simpa using hiclean
  simp [if_neg hm', if_neg hi']
  simpa using hlen

lemma predict_supplier_invalid (e : Engine) (req : SupplierRequest)
    (hv : validate_supplier_performance_input req ≠ []) :
    predict_supplier_performance e req = ApiResult.badRequest "Invalid input data" := by
  unfold predict_supplier_performance
  rw [if_pos hv]

/-- Success shape of the supplier route: with a validator-clean request and
at least two cleaned, dated rows per metric, the route succeeds with the
assembled, clamped response; the low-density warning `dw` is whatever the
density test produced. -/
lemma predict_supplier_ok (e : Engine) (req : SupplierRequest)
    (pts : List HistoricalPoint) (fp : Nat) (sid : String) (dw : List String)
    (hv : validate_supplier_performance_input req = [])
    (hh : req.historicalData = FieldVal.val pts)
    (hf : req.futurePeriods = FieldVal.val fp)
    (hs : req.supplierId = FieldVal.val sid)
    (hdw : (if density pts.length (dsCol pts) < 7/10 then
      (["Low data density"] : List String) else []) = dw)
    (hq2 : ¬ (clean_metric_df "quality"
      (pts.map (fun p => (p.date, p.qualityRating)))).1.length < 2)
    (hqds : (clean_metric_df "quality"
      (pts.map (fun p => (p.date, p.qualityRating)))).1.any (fun r => r.1.isNone) = false)
    (hl2 : ¬ (clean_metric_df "lead time"
      (pts.map (fun p => (p.date, p.leadTimeReliability)))).1.length < 2)
    (hlds : (clean_metric_df "lead time"
      (pts.map (fun p => (p.date, p.leadTimeReliability)))).1.any
        (fun r => r.1.isNone) = false) :
    predict_supplier_performance e req = ApiResult.ok
      { supplierId := sid
        qualityForecast := ((make_future_dataframe ((clean_metric_df "quality"
            (pts.map (fun p => (p.date, p.qualityRating)))).1.filterMap (fun r => r.1))
            fp false).map (fun d => (d, e.supplierRow (clean_metric_df "quality"
            (pts.map (fun p => (p.date, p.qualityRating)))).1 (1/20) d))).map (fun r =>
          ⟨r.1, clamp01 r.2.yhat, clamp01 r.2.yhat_lower, clamp01 r.2.yhat_upper⟩)
        leadTimeForecast := ((make_future_dataframe ((clean_metric_df "lead time"
            (pts.map (fun p => (p.date, p.leadTimeReliability)))).1.filterMap (fun r => r.1))
            fp false).map (fun d => (d, e.supplierRow (clean_metric_df "lead time"
            (pts.map (fun p => (p.date, p.leadTimeReliability)))).1 (1/10) d))).map (fun r =>
          ⟨r.1, clamp01 r.2.yhat, clamp01 r.2.yhat_lower, clamp01 r.2.yhat_upper⟩)
        qualityDf := (make_future_dataframe ((clean_metric_df "quality"
            (pts.map (fun p => (p.date, p.qualityRating)))).1.filterMap (fun r => r.1))
            fp false).map (fun d => (d, e.supplierRow (clean_metric_df "quality"
            (pts.map (fun p => (p.date, p.qualityRating)))).1 (1/20) d))
        leadTimeDf := (make_future_dataframe ((clean_metric_df "lead time"
            (pts.map (fun p => (p.date, p.leadTimeReliability)))).1.filterMap (fun r => r.1))
            fp false).map (fun d => (d, e.supplierRow (clean_metric_df "lead time"
            (pts.map (fun p => (p.date, p.leadTimeReliability)))).1 (1/10) d))
        dataPoints := pts.length
        dateRangeStart := listMin (dsCol pts)
        dateRangeEnd := listMax (dsCol pts)
        futurePeriods := fp
        warnings := dw ++
          (if 0 < countGaps ((dsCol pts).insertionSort (· ≤ ·)) then
            ["Found gaps > 7 days"] else []) ++
          (clean_metric_df "quality" (pts.map (fun p => (p.date, p.qualityRating)))).2 ++
          (clean_metric_df "lead time"
            (pts.map (fun p => (p.date, p.leadTimeReliability)))).2
        gapsRecorded := countGaps ((dsCol pts).insertionSort (· ≤ ·)) } := by
  unfold predict_supplier_performance
  rw [hv, hh, hf, hs]
  simp [hqds, hlds, if_neg hq2, if_neg hl2, hdw]

/-! ## Properties of the regressor-resolution steps -/

/-- Caller-supplied MTI values are used verbatim, for every engine. -/
lemma resolve_mti_supplied (e : Engine) (pts : List HistoricalPoint)
    (fr : FutureRegs) (fp : Nat) (vs : List ℚ)
    (hcol : hasMtiCol pts = true) (hsup : fr.mti = some vs) :
    resolve_mti_regressor e pts (some fr) fp = Except.ok [("mti", vs)] := by
  unfold resolve_mti_regressor
  rw [hcol]
  simp [hsup]

/-- The entries contributed by the MTI step are keyed `"mti"` exactly when
the column is declared. -/
lemma resolve_mti_keys (e : Engine) (pts : List HistoricalPoint)
    (fr : Option FutureRegs) (fp : Nat) (l : List (String × List ℚ))
    (h : resolve_mti_regressor e pts fr fp = Except.ok l) :
    l.map (fun kv => kv.1) = (if hasMtiCol pts then ["mti"] else []) := by
  unfold resolve_mti_regressor at h
  by_cases hcol : hasMtiCol pts
  · rw [if_pos hcol]
    rw [if_pos hcol] at h
    rcases fr with _ | f
    · cases hp : predict_regressor e (mtiRows pts) false fp none with
      | error s => simp [hp, Except.map] at h
      | ok vs => simp [hp, Except.map] at h; simp [← h]
    · rcases hm : f.mti with _ | vs
      · simp only [hm] at h
        cases hp : predict_regressor e (mtiRows pts) false fp none with
        | error s => simp [hp, Except.map] at h
        | ok vs => simp [hp, Except.map] at h; simp [← h]
      · simp only [hm] at h
        simp at h
        simp [← h]
  · rw [if_neg hcol]
    rw [if_neg hcol] at h
    cases h
    rfl

/-- The entries contributed by the inflation step are keyed `"inflation"`
exactly when the column is declared. -/
lemma resolve_inflation_keys (e : Engine) (pts : List HistoricalPoint)
    (lid : String) (fp : Nat) (l : List (String × List ℚ))
    (h : resolve_inflation_regressor e pts lid fp = Except.ok l) :
    l.map (fun kv => kv.1) = (if hasInflationCol pts then ["inflation"] else []) := by
  unfold resolve_inflation_regressor at h
  by_cases hcol : hasInflationCol pts
  · rw [if_pos hcol]
    rw [if_pos hcol] at h
    cases hp : predict_regressor e (inflationRows pts) (hasLocationCol pts) fp (some lid) with
    | error s => simp [hp, Except.map] at h
    | ok vs => simp [hp, Except.map] at h; simp [← h]
  · rw [if_neg hcol]
    rw [if_neg hcol] at h
    cases h
    rfl

/-- A regressor without a declared column contributes nothing. -/
lemma resolve_mti_absent (e : Engine) (pts : List HistoricalPoint)
    (fr : Option FutureRegs) (fp : Nat) (hcol : hasMtiCol pts = false) :
    resolve_mti_regressor e pts fr fp = Except.ok [] := by
  unfold resolve_mti_regressor
  rw [hcol]
  simp

lemma resolve_inflation_absent (e : Engine) (pts : List HistoricalPoint)
    (lid : String) (fp : Nat) (hcol : hasInflationCol pts = false) :
    resolve_inflation_regressor e pts lid fp = Except.ok [] := by
  unfold resolve_inflation_regressor
  rw [hcol]
  simp

set_option maxHeartbeats 1000000 in
/-- On every success of the demand route, `debugInfo.generatedRegressors`
equals `debugInfo.regressorsUsed`: the `future_regressors` dictionary gets
one entry per declared regressor column, whether its values were supplied
by the caller or projected by the engine. -/
lemma predict_demand_ok_generated (e : Engine) (req : DemandRequest)
    (resp : DemandResponse) (h : predict_demand e req = ApiResult.ok resp) :
    resp.generatedRegressors = resp.regressorsUsed := by
  simp only [predict_demand] at h
  repeat' split at h
  any_goals exact ApiResult.noConfusion h
  rw [ApiResult.ok.injEq] at h
  subst h
  simp only [List.map_append, regressorsAdded]
  congr 1
  · exact resolve_mti_keys _ _ _ _ _ (by assumption)
  · exact resolve_inflation_keys _ _ _ _ _ (by assumption)

/-- Without re-emitted history, the future frame has exactly `periods` rows. -/
lemma make_future_dataframe_length (historyDates : List Int) (periods : Nat) :
    (make_future_dataframe historyDates periods false).length = periods := by
  simp [make_future_dataframe]

set_option maxHeartbeats 1000000 in
/-- On every success of the supplier route, every row of both forecasts
has `value`, `lower` and `upper` clamped into `[0, 1]`. -/
lemma predict_supplier_ok_clamped (e : Engine) (req : SupplierRequest)
    (resp : SupplierResponse) (h : predict_supplier_performance e req = ApiResult.ok resp) :
    (∀ r ∈ resp.qualityForecast, 0 ≤ r.value ∧ r.value ≤ 1 ∧ 0 ≤ r.lower ∧ r.lower ≤ 1 ∧
      0 ≤ r.upper ∧ r.upper ≤ 1) ∧
    (∀ r ∈ resp.leadTimeForecast, 0 ≤ r.value ∧ r.value ≤ 1 ∧ 0 ≤ r.lower ∧ r.lower ≤ 1 ∧
      0 ≤ r.upper ∧ r.upper ≤ 1) := by
  simp only [predict_supplier_performance] at h
  repeat' split at h
  any_goals exact ApiResult.noConfusion h
  all_goals
    rw [ApiResult.ok.injEq] at h
    subst h
    constructor <;>
    · intro r hr
      simp only [List.mem_map] at hr
      obtain ⟨x, hx, rfl⟩ := hr
      exact ⟨clamp01_nonneg _, clamp01_le_one _, clamp01_nonneg _, clamp01_le_one _,
        clamp01_nonneg _, clamp01_le_one _⟩

set_option maxHeartbeats 1000000 in
/-- Structural inversion of a successful demand run: the request fields it
fixes, the resolved regressor entries, and how the response's regressor
bookkeeping is assembled from them. -/
lemma predict_demand_ok_shape (e : Engine) (req : DemandRequest) (resp : DemandResponse)
    (h : predict_demand e req = ApiResult.ok resp) :
    ∃ (pts : List HistoricalPoint) (fp : Nat) (lid : String)
      (mtiE infE : List (String × List ℚ)),
      req.historicalData = FieldVal.val pts ∧ req.futurePeriods = FieldVal.val fp ∧
      req.locationId = some lid ∧
      resolve_mti_regressor e pts req.futureRegressors fp = Except.ok mtiE ∧
      resolve_inflation_regressor e pts lid fp = Except.ok infE ∧
      resp.futureRegressorsMti = lookupRegressor "mti" (mtiE ++ infE) ∧
      resp.futureRegressorsInflation = lookupRegressor "inflation" (mtiE ++ infE) ∧
      resp.generatedRegressors = (mtiE ++ infE).map (fun kv => kv.1) ∧
      resp.regressorsUsed = regressorsAdded pts := by
  simp only [predict_demand] at h
  repeat' split at h
  any_goals exact ApiResult.noConfusion h
  rw [ApiResult.ok.injEq] at h
  subst h
  exact ⟨_, _, _, _, _, by assumption, by assumption, by assumption, by assumption,
    by assumption, rfl, rfl, rfl, rfl⟩

/-- Filtering first with a predicate that the partial map already sends to
`none` does not change a `filterMap`. -/
lemma filterMap_filter_of_none {α β : Type} (p : α → Bool) (f : α → Option β)
    (hf : ∀ r, p r = false → f r = none) :
    ∀ l : List α, (l.filter p).filterMap f = l.filterMap f := by
  intro l
  induction l with
  | nil => rfl
  | cons a l ih =>
    by_cases hp : p a = true
    · rw [List.filter_cons_of_pos hp, List.filterMap_cons, List.filterMap_cons, ih]
    · have hp' : p a = false := by simpa using hp
      rw [List.filter_cons_of_neg (by simp [hp']), List.filterMap_cons, hf a hp']
      exact ih

/-- The defensive cleaning keeps exactly the numeric rows, with their
values unchanged: nulls are dropped, non-numerics are coerced to `NaN`
and dropped. -/
lemma clean_metric_df_rows (label : String) (rows : List (Option Int × CellVal)) :
    (clean_metric_df label rows).1 = rows.filterMap
      (fun r => match r.2 with | CellVal.num q => some (r.1, q) | _ => none) := by
  unfold clean_metric_df
  by_cases hn : rows.any (fun r => r.2.isNull) = true
  · simp only [hn, if_true]
    exact filterMap_filter_of_none _ _
      (by
        intro r hr
        have hnul : r.2.isNull = true := by simpa using hr
        match hc : r.2 with
        | CellVal.missing => simp [hc]
        | CellVal.null => simp [hc]
        | CellVal.num q => rw [hc] at hnul; simp [CellVal.isNull] at hnul
        | CellVal.nonNum => simp [hc]) rows
  · simp only [if_neg hn]

/-- A null value in the metric column records the null-values warning. -/
lemma clean_metric_df_warn_null (label : String) (rows : List (Option Int × CellVal))
    (h : rows.any (fun r => r.2.isNull) = true) :
    ("Found null values in " ++ label ++ " data") ∈ (clean_metric_df label rows).2 := by
  unfold clean_metric_df
  simp [h]

/-- A non-numeric value in an otherwise non-null metric column records the
non-numeric-values warning. -/
lemma clean_metric_df_warn_nonnum (label : String) (rows : List (Option Int × CellVal))
    (hnl : rows.any (fun r => r.2.isNull) = false)
    (hnn : rows.any (fun r => r.2.isNonNum) = true) :
    ("Found non-numeric values in " ++ label ++ " data") ∈ (clean_metric_df label rows).2 := by
  unfold clean_metric_df
  simp [hnl, hnn]

instance {ε α : Type} [DecidableEq ε] [DecidableEq α] : DecidableEq (Except ε α) :=
  fun a b =>
    match a, b with
    | Except.error x, Except.error y =>
      if h : x = y then isTrue (by rw [h]) else isFalse (by intro hc; cases hc; exact h rfl)
    | Except.ok x, Except.ok y =>
      if h : x = y then isTrue (by rw [h]) else isFalse (by intro hc; cases hc; exact h rfl)
    | Except.error _, Except.ok _ => isFalse (by intro hc; cases hc)
    | Except.ok _, Except.error _ => isFalse (by intro hc; cases hc)

/-! ## Concrete runs used by witnesses and counterexamples -/

/-- A valid two-point demand request with no regressor columns. -/
def reqPlain : DemandRequest :=
  ⟨FieldVal.val [dPoint 0 1, dPoint 1 1], FieldVal.val 3, some "L", some "M", none⟩

/-- The response of `engC` to `reqPlain`. -/
def respPlain : DemandResponse :=
  ⟨[(2, ⟨0, 0, 0, 0, 0⟩), (3, ⟨0, 0, 0, 0, 0⟩), (4, ⟨0, 0, 0, 0, 0⟩)], "L", "M", [], [],
    2, 0, 1, [], 3, [], 0⟩

lemma predict_demand_reqPlain : predict_demand engC reqPlain = ApiResult.ok respPlain := by
  have h := predict_demand_ok engC reqPlain [dPoint 0 1, dPoint 1 1] 3 "L" "M" [] []
    (by decide) rfl rfl rfl rfl (by decide) (by decide)
    (by
      have h1 : listMax (dsCol [dPoint 0 1, dPoint 1 1]) = 1 := by decide
      have h2 : listMin (dsCol [dPoint 0 1, dPoint 1 1]) = 0 := by decide
      rw [density, h1, h2]
      norm_num)
    (by decide) (by decide) (by decide) (by decide) (by decide) (by decide) (by decide)
  rw [h]
  decide

/-- Demand request with a declared `inflation` column together with
caller-supplied future inflation values `[999]`. -/
def reqInflation : DemandRequest :=
  ⟨FieldVal.val [dPointInf 0 1 2, dPointInf 1 1 3], FieldVal.val 1, some "L1", some "M1",
    some ⟨none, some [999]⟩⟩

/-- The response of `engC` to `reqInflation`: the engine-projected value 5
replaces the caller-supplied 999. -/
def respInflation : DemandResponse :=
  ⟨[(2, ⟨0, 0, 0, 0, 0⟩)], "L1", "M1", [], [5], 2, 0, 1, ["inflation"], 1, ["inflation"], 0⟩

lemma predict_demand_reqInflation :
    predict_demand engC reqInflation = ApiResult.ok respInflation := by
  have h := predict_demand_ok engC reqInflation [dPointInf 0 1 2, dPointInf 1 1 3] 1 "L1" "M1"
    [] [("inflation", [5])]
    (by decide) rfl rfl rfl rfl (by decide) (by decide)
    (by
      have h1 : listMax (dsCol [dPointInf 0 1 2, dPointInf 1 1 3]) = 1 := by decide
      have h2 : listMin (dsCol [dPointInf 0 1 2, dPointInf 1 1 3]) = 0 := by decide
      rw [density, h1, h2]
      norm_num)
    (by decide) (by decide) (by decide) (by decide) (by decide) (by decide) (by decide)
  rw [h]
  decide

/-- Demand request with a declared `mti` column together with
caller-supplied future MTI values `[7]`. -/
def reqMtiSupplied : DemandRequest :=
  ⟨FieldVal.val [dPointMti 0 1 2, dPointMti 1 1 3], FieldVal.val 1, some "L1", some "M1",
    some ⟨some [7], none⟩⟩

/-- The response of `engC` to `reqMtiSupplied`: the supplied values are
used verbatim, yet `"mti"` still appears in `generatedRegressors`. -/
def respMtiSupplied : DemandResponse :=
  ⟨[(2, ⟨0, 0, 0, 0, 0⟩)], "L1", "M1", [7], [], 2, 0, 1, ["mti"], 1, ["mti"], 0⟩

lemma predict_demand_reqMtiSupplied :
    predict_demand engC reqMtiSupplied = ApiResult.ok respMtiSupplied := by
  have h := predict_demand_ok engC reqMtiSupplied [dPointMti 0 1 2, dPointMti 1 1 3] 1 "L1" "M1"
    [("mti", [7])] []
    (by decide) rfl rfl rfl rfl (by decide) (by decide)
    (by
      have h1 : listMax (dsCol [dPointMti 0 1 2, dPointMti 1 1 3]) = 1 := by decide
      have h2 : listMin (dsCol [dPointMti 0 1 2, dPointMti 1 1 3]) = 0 := by decide
      rw [density, h1, h2]
      norm_num)
    (by decide) (by decide) (by decide) (by decide) (by decide) (by decide) (by decide)
  rw [h]
  decide

/-- A valid two-point supplier request with clean metric values. -/
def reqS : SupplierRequest :=
  ⟨FieldVal.val [sPoint 0 (CellVal.num 2) (CellVal.num 3),
    sPoint 1 (CellVal.num 2) (CellVal.num 3)], FieldVal.val 2, FieldVal.val "S1"⟩

/-- The response of `engC` to `reqS`: the raw rows (2, -1, 3) are clamped
to (1, 0, 1). -/
def respS : SupplierResponse :=
  ⟨"S1", [⟨2, 1, 0, 1⟩, ⟨3, 1, 0, 1⟩], [⟨2, 1, 0, 1⟩, ⟨3, 1, 0, 1⟩],
    [(2, ⟨2, -1, 3, 0, 0⟩), (3, ⟨2, -1, 3, 0, 0⟩)],
    [(2, ⟨2, -1, 3, 0, 0⟩), (3, ⟨2, -1, 3, 0, 0⟩)], 2, 0, 1, 2, [], 0⟩

lemma predict_supplier_reqS : predict_supplier_performance engC reqS = ApiResult.ok respS := by
  have h := predict_supplier_ok engC reqS [sPoint 0 (CellVal.num 2) (CellVal.num 3),
      sPoint 1 (CellVal.num 2) (CellVal.num 3)] 2 "S1" []
    (by decide) rfl rfl rfl
    (by
      have h1 : listMax (dsCol [sPoint 0 (CellVal.num 2) (CellVal.num 3),
        sPoint 1 (CellVal.num 2) (CellVal.num 3)]) = 1 := by decide
      have h2 : listMin (dsCol [sPoint 0 (CellVal.num 2) (CellVal.num 3),
        sPoint 1 (CellVal.num 2) (CellVal.num 3)]) = 0 := by decide
      rw [density, h1, h2]
      norm_num)
    (by decide) (by decide) (by decide) (by decide)
  rw [h]
  decide

/-- The same clean supplier request, to be served by `engSplit`. -/
def reqC6 : SupplierRequest :=
  ⟨FieldVal.val [sPoint 0 (CellVal.num 2) (CellVal.num 3),
    sPoint 1 (CellVal.num 2) (CellVal.num 3)], FieldVal.val 2, FieldVal.val "S1"⟩

/-- The response of `engSplit` to `reqC6`: the quality model's seasonal
component equals its combined forecast, the lead-time model's is zero. -/
def respC6 : SupplierResponse :=
  ⟨"S1", [⟨2, 1, 1, 1⟩, ⟨3, 1, 1, 1⟩], [⟨2, 1, 1, 1⟩, ⟨3, 1, 1, 1⟩],
    [(2, ⟨2, 2, 2, 0, 2⟩), (3, ⟨3, 3, 3, 0, 3⟩)],
    [(2, ⟨2, 2, 2, 0, 0⟩), (3, ⟨3, 3, 3, 0, 0⟩)], 2, 0, 1, 2, [], 0⟩

lemma predict_supplier_reqC6 :
    predict_supplier_performance engSplit reqC6 = ApiResult.ok respC6 := by
  have h := predict_supplier_ok engSplit reqC6 [sPoint 0 (CellVal.num 2) (CellVal.num 3),
      sPoint 1 (CellVal.num 2) (CellVal.num 3)] 2 "S1" []
    (by decide) rfl rfl rfl
    (by
      have h1 : listMax (dsCol [sPoint 0 (CellVal.num 2) (CellVal.num 3),
        sPoint 1 (CellVal.num 2) (CellVal.num 3)]) = 1 := by decide
      have h2 : listMin (dsCol [sPoint 0 (CellVal.num 2) (CellVal.num 3),
        sPoint 1 (CellVal.num 2) (CellVal.num 3)]) = 0 := by decide
      rw [density, h1, h2]
      norm_num)
    (by decide) (by decide) (by decide) (by decide)
  rw [h]
  decide

/-- A supplier request whose third point has a null `qualityRating`. -/
def reqSNull : SupplierRequest :=
  ⟨FieldVal.val [sPoint 0 (CellVal.num 2) (CellVal.num 3),
    sPoint 1 (CellVal.num 2) (CellVal.num 3),
    sPoint 2 CellVal.null (CellVal.num 3)], FieldVal.val 2, FieldVal.val "S2"⟩

/-- The response of `engC` to `reqSNull`: the null row is dropped from the
quality branch (whose future therefore starts at day 2), a warning is
recorded, and both forecasts still have `futurePeriods` rows. -/
def respSNull : SupplierResponse :=
  ⟨"S2", [⟨2, 1, 0, 1⟩, ⟨3, 1, 0, 1⟩], [⟨3, 1, 0, 1⟩, ⟨4, 1, 0, 1⟩],
    [(2, ⟨2, -1, 3, 0, 0⟩), (3, ⟨2, -1, 3, 0, 0⟩)],
    [(3, ⟨2, -1, 3, 0, 0⟩), (4, ⟨2, -1, 3, 0, 0⟩)], 3, 0, 2, 2,
    ["Found null values in quality data"], 0⟩

lemma predict_supplier_reqSNull :
    predict_supplier_performance engC reqSNull = ApiResult.ok respSNull := by
  have h := predict_supplier_ok engC reqSNull [sPoint 0 (CellVal.num 2) (CellVal.num 3),
      sPoint 1 (CellVal.num 2) (CellVal.num 3), sPoint 2 CellVal.null (CellVal.num 3)] 2 "S2" []
    (by decide) rfl rfl rfl
    (by
      have h1 : listMax (dsCol [sPoint 0 (CellVal.num 2) (CellVal.num 3),
        sPoint 1 (CellVal.num 2) (CellVal.num 3), sPoint 2 CellVal.null (CellVal.num 3)]) = 2 := by
        decide
      have h2 : listMin (dsCol [sPoint 0 (CellVal.num 2) (CellVal.num 3),
        sPoint 1 (CellVal.num 2) (CellVal.num 3), sPoint 2 CellVal.null (CellVal.num 3)]) = 0 := by
        decide
      rw [density, h1, h2]
      norm_num)
    (by decide) (by decide) (by decide) (by decide)
  rw [h]
  decide

/-- A supplier request whose two points are 10 days apart: density 2/11. -/
def reqSLow : SupplierRequest :=
  ⟨FieldVal.val [sPoint 0 (CellVal.num 2) (CellVal.num 3),
    sPoint 10 (CellVal.num 2) (CellVal.num 3)], FieldVal.val 2, FieldVal.val "S3"⟩

/-- The response of `engC` to `reqSLow`: low density and the 10-day gap
are only warnings; the forecast is still produced. -/
def respSLow : SupplierResponse :=
  ⟨"S3", [⟨11, 1, 0, 1⟩, ⟨12, 1, 0, 1⟩], [⟨11, 1, 0, 1⟩, ⟨12, 1, 0, 1⟩],
    [(11, ⟨2, -1, 3, 0, 0⟩), (12, ⟨2, -1, 3, 0, 0⟩)],
    [(11, ⟨2, -1, 3, 0, 0⟩), (12, ⟨2, -1, 3, 0, 0⟩)], 2, 0, 10, 2,
    ["Low data density", "Found gaps > 7 days"], 1⟩

lemma predict_supplier_reqSLow :
    predict_supplier_performance engC reqSLow = ApiResult.ok respSLow := by
  have h := predict_supplier_ok engC reqSLow [sPoint 0 (CellVal.num 2) (CellVal.num 3),
      sPoint 10 (CellVal.num 2) (CellVal.num 3)] 2 "S3" ["Low data density"]
    (by decide) rfl rfl rfl
    (by
      have h1 : listMax (dsCol [sPoint 0 (CellVal.num 2) (CellVal.num 3),
        sPoint 10 (CellVal.num 2) (CellVal.num 3)]) = 10 := by decide
      have h2 : listMin (dsCol [sPoint 0 (CellVal.num 2) (CellVal.num 3),
        sPoint 10 (CellVal.num 2) (CellVal.num 3)]) = 0 := by decide
      rw [density, h1, h2]
      norm_num)
    (by decide) (by decide) (by decide) (by decide)
  rw [h]
  decide

/-- 22 demand points: days 0..20 and day 29 — density 22/30 passes the
gate, and the 9-day jump is one recorded gap. -/
def gapPts : List HistoricalPoint :=
  ((List.range 21).map (fun i : Nat => dPoint (i : Int) 1)) ++ [dPoint 29 1]

/-- Demand request over `gapPts`. -/
def reqGap : DemandRequest :=
  ⟨FieldVal.val gapPts, FieldVal.val 1, some "L", some "M", none⟩

/-- The response of `engC` to `reqGap`: one recorded gap, no rejection. -/
def respGap : DemandResponse :=
  ⟨[(30, ⟨0, 0, 0, 0, 0⟩)], "L", "M", [], [], 22, 0, 29, [], 1, [], 1⟩

lemma predict_demand_reqGap : predict_demand engC reqGap = ApiResult.ok respGap := by
  have h := predict_demand_ok engC reqGap gapPts 1 "L" "M" [] []
    (by decide) rfl rfl rfl rfl (by decide) (by decide)
    (by
      have h1 : listMax (dsCol gapPts) = 29 := by decide
      have h2 : listMin (dsCol gapPts) = 0 := by decide
      have h3 : (gapPts.length : ℚ) = 22 := by decide
      rw [density, h1, h2, h3]
      norm_num)
    (by decide) (by decide) (by decide) (by decide) (by decide) (by decide) (by decide)
  rw [h]
  decide

/-- Eight demand points on a span of 11 calendar days, seven of them on
day 0: the density statistic counts the duplicates individually. -/
def dupPts : List HistoricalPoint :=
  [dPoint 0 1, dPoint 0 1, dPoint 0 1, dPoint 0 1, dPoint 0 1, dPoint 0 1, dPoint 0 1,
    dPoint 10 1]

/-- The timestamp column of `dupPts`. -/
def dupDates : List Int := [0, 0, 0, 0, 0, 0, 0, 10]

/-- Demand request over `dupPts`. -/
def reqDup : DemandRequest :=
  ⟨FieldVal.val dupPts, FieldVal.val 1, some "L", some "M", none⟩

/-- The response of `engC` to `reqDup`: the density gate passes. -/
def respDup : DemandResponse :=
  ⟨[(11, ⟨0, 0, 0, 0, 0⟩)], "L", "M", [], [], 8, 0, 10, [], 1, [], 1⟩

lemma predict_demand_reqDup : predict_demand engC reqDup = ApiResult.ok respDup := by
  have h := predict_demand_ok engC reqDup dupPts 1 "L" "M" [] []
    (by decide) rfl rfl rfl rfl (by decide) (by decide)
    (by
      have h1 : listMax (dsCol dupPts) = 10 := by decide
      have h2 : listMin (dsCol dupPts) = 0 := by decide
      have h3 : (dupPts.length : ℚ) = 8 := by decide
      rw [density, h1, h2, h3]
      norm_num)
    (by decide) (by decide) (by decide) (by decide) (by decide) (by decide) (by decide)
  rw [h]
  decide

/-! ## Claims -/

/-- C1 (corrected).  The validator only checks `historicalData` and
`futurePeriods` for the demand operation (and additionally `supplierId`
for the supplier operation).  For those fields, a request missing exactly
one of them gets exactly that issue and a 400 for every engine (the engine
is never consulted).  But for a demand request missing `locationId` or
`modelId` the validator reports nothing: the handler's `data["locationId"]`
/ `data["modelId"]` raises `KeyError`, which escapes to the outermost
handler and produces a 500 "Fatal error" — not a 400 naming the field. -/
theorem missing_required_field_handling :
    (∀ (req : DemandRequest) (fp : Nat),
      req.historicalData = FieldVal.missing → req.futurePeriods = FieldVal.val fp →
      validate_demand_input req = ["Missing required field: historicalData"] ∧
        ∀ e : Engine, predict_demand e req = ApiResult.badRequest "Invalid input data") ∧
    (∀ (req : DemandRequest) (pts : List HistoricalPoint),
      req.historicalData = FieldVal.val pts → req.futurePeriods = FieldVal.missing →
      validate_demand_input req = ["Missing required field: futurePeriods"] ∧
        ∀ e : Engine, predict_demand e req = ApiResult.badRequest "Invalid input data") ∧
    (∀ (req : DemandRequest) (p : HistoricalPoint) (rest : List HistoricalPoint) (fp : Nat),
      req.historicalData = FieldVal.val (p :: rest) → req.futurePeriods = FieldVal.val fp →
      p.date ≠ none → p.demand.isMissing = false → req.locationId = none →
      validate_demand_input req = [] ∧
        ∀ e : Engine, predict_demand e req = ApiResult.serverError "Fatal error") ∧
    (∀ (req : DemandRequest) (p : HistoricalPoint) (rest : List HistoricalPoint) (fp : Nat)
        (lid : String),
      req.historicalData = FieldVal.val (p :: rest) → req.futurePeriods = FieldVal.val fp →
      p.date ≠ none → p.demand.isMissing = false → req.locationId = some lid →
      req.modelId = none →
      validate_demand_input req = [] ∧
        ∀ e : Engine, predict_demand e req = ApiResult.serverError "Fatal error") ∧
    (∀ (req : SupplierRequest) (fp : Nat) (sid : String),
      req.historicalData = FieldVal.missing → req.futurePeriods = FieldVal.val fp →
      req.supplierId = FieldVal.val sid →
      validate_supplier_performance_input req = ["Missing required field: historicalData"] ∧
        ∀ e : Engine,
          predict_supplier_performance e req = ApiResult.badRequest "Invalid input data") ∧
    (∀ (req : SupplierRequest) (pts : List HistoricalPoint) (sid : String),
      req.historicalData = FieldVal.val pts → req.futurePeriods = FieldVal.missing →
      req.supplierId = FieldVal.val sid →
      validate_supplier_performance_input req = ["Missing required field: futurePeriods"] ∧
        ∀ e : Engine,
          predict_supplier_performance e req = ApiResult.badRequest "Invalid input data") ∧
    (∀ (req : SupplierRequest) (pts : List HistoricalPoint) (fp : Nat),
      req.historicalData = FieldVal.val pts → req.futurePeriods = FieldVal.val fp →
      req.supplierId = FieldVal.missing →
      validate_supplier_performance_input req = ["Missing required field: supplierId"] ∧
        ∀ e : Engine,
          predict_supplier_performance e req = ApiResult.badRequest "Invalid input data") := by
  refine ⟨?_, ?_, ?_, ?_, ?_, ?_, ?_⟩
  · intro req fp hh hf
    have hval : validate_demand_input req = ["Missing required field: historicalData"] := by
      simp [validate_demand_input, fieldIssues, hh, hf]
    exact ⟨hval, fun e => predict_demand_invalid e req (by rw [hval]; simp)⟩
  · intro req pts hh hf
    have hval : validate_demand_input req = ["Missing required field: futurePeriods"] := by
      cases pts with
      | nil => simp [validate_demand_input, fieldIssues, hh, hf]
      | cons p rest => simp [validate_demand_input, fieldIssues, hh, hf]
    exact ⟨hval, fun e => predict_demand_invalid e req (by rw [hval]; simp)⟩
  · intro req p rest fp hh hf hd hdm hloc
    have hval : validate_demand_input req = [] := by
      simp [validate_demand_input, fieldIssues, hh, hf, demandPointIssues, hd, hdm]
    exact ⟨hval, fun e => predict_demand_missing_location e req hval hloc⟩
  · intro req p rest fp lid hh hf hd hdm hloc hmod
    have hval : validate_demand_input req = [] := by
      simp [validate_demand_input, fieldIssues, hh, hf, demandPointIssues, hd, hdm]
    exact ⟨hval, fun e => predict_demand_missing_model e req lid hval hloc hmod⟩
  · intro req fp sid hh hf hs
    have hval : validate_supplier_performance_input req =
        ["Missing required field: historicalData"] := by
      simp [validate_supplier_performance_input, fieldIssues, hh, hf, hs]
    exact ⟨hval, fun e => predict_supplier_invalid e req (by rw [hval]; simp)⟩
  · intro req pts sid hh hf hs
    have hval : validate_supplier_performance_input req =
        ["Missing required field: futurePeriods"] := by
      cases pts with
      | nil => simp [validate_supplier_performance_input, fieldIssues, hh, hf, hs]
      | cons p rest => simp [validate_supplier_performance_input, fieldIssues, hh, hf, hs]
    exact ⟨hval, fun e => predict_supplier_invalid e req (by rw [hval]; simp)⟩
  · intro req pts fp hh hf hs
    have hval : validate_supplier_performance_input req =
        ["Missing required field: supplierId"] := by
      cases pts with
      | nil => simp [validate_supplier_performance_input, fieldIssues, hh, hf, hs]
      | cons p rest => simp [validate_supplier_performance_input, fieldIssues, hh, hf, hs]
    exact ⟨hval, fun e => predict_supplier_invalid e req (by rw [hval]; simp)⟩

/-- C1 witness: the amended statement at two concrete requests. -/
theorem missing_required_field_handling_witness :
    validate_demand_input ⟨FieldVal.missing, FieldVal.val 30, some "L", some "M", none⟩ =
        ["Missing required field: historicalData"] ∧
      predict_demand engC ⟨FieldVal.missing, FieldVal.val 30, some "L", some "M", none⟩ =
        ApiResult.badRequest "Invalid input data" ∧
      validate_supplier_performance_input
          ⟨FieldVal.val [sPoint 0 (CellVal.num 2) (CellVal.num 3)], FieldVal.val 30,
            FieldVal.missing⟩ = ["Missing required field: supplierId"] ∧
      predict_supplier_performance engC
          ⟨FieldVal.val [sPoint 0 (CellVal.num 2) (CellVal.num 3)], FieldVal.val 30,
            FieldVal.missing⟩ = ApiResult.badRequest "Invalid input data" := by
  obtain ⟨h1, h2⟩ := missing_required_field_handling.1
    ⟨FieldVal.missing, FieldVal.val 30, some "L", some "M", none⟩ 30 rfl rfl
  obtain ⟨h3, h4⟩ := missing_required_field_handling.2.2.2.2.2.2
    ⟨FieldVal.val [sPoint 0 (CellVal.num 2) (CellVal.num 3)], FieldVal.val 30, FieldVal.missing⟩
    [sPoint 0 (CellVal.num 2) (CellVal.num 3)] 30 rfl rfl rfl
  exact ⟨h1, h2 engC, h3, h4 engC⟩

/-- C1 counterexample: a demand request whose only missing required field
is `locationId` (everything else well-formed).  The validator's issue list
is empty — it does not contain "Missing required field: locationId" — and
the operation returns a 500 "Fatal error", not a 400-class response. -/
theorem missing_location_not_caught_by_validator :
    validate_demand_input ⟨FieldVal.val [dPoint 0 1, dPoint 1 1], FieldVal.val 3, none,
        some "M", none⟩ = [] ∧
      predict_demand engC ⟨FieldVal.val [dPoint 0 1, dPoint 1 1], FieldVal.val 3, none,
        some "M", none⟩ = ApiResult.serverError "Fatal error" := by
  constructor
  · decide
  · exact predict_demand_missing_location engC _ (by decide) rfl

/-- C2 (corrected).  Caller-supplied future MTI values are used verbatim:
the MTI resolution step returns them unchanged for every engine (so the
engine is never consulted for that regressor), and every successful
response echoes them in `futureRegressors.mti`.  The inflation regressor,
by contrast, is always projected (see the counterexample). -/
theorem mti_supplied_used_verbatim (pts : List HistoricalPoint) (fr : FutureRegs)
    (fp : Nat) (vs : List ℚ)
    (hcol : hasMtiCol pts = true) (hsup : fr.mti = some vs) :
    (∀ e : Engine, resolve_mti_regressor e pts (some fr) fp = Except.ok [("mti", vs)]) ∧
    (∀ e e' : Engine, resolve_mti_regressor e pts (some fr) fp =
      resolve_mti_regressor e' pts (some fr) fp) ∧
    (∀ (e : Engine) (req : DemandRequest) (resp : DemandResponse),
      req.historicalData = FieldVal.val pts → req.futurePeriods = FieldVal.val fp →
      req.futureRegressors = some fr →
      predict_demand e req = ApiResult.ok resp → resp.futureRegressorsMti = vs) := by
  refine ⟨fun e => resolve_mti_supplied e pts fr fp vs hcol hsup, ?_, ?_⟩
  · intro e e'
    rw [resolve_mti_supplied e pts fr fp vs hcol hsup,
      resolve_mti_supplied e' pts fr fp vs hcol hsup]
  · intro e req resp hh hf hfr hok
    obtain ⟨pts', fp', lid, mtiE, infE, hh', hf', hloc, hmti, hinf, hM, _, _, _⟩ :=
      predict_demand_ok_shape e req resp hok
    rw [hh] at hh'
    injection hh' with hpe
    rw [hf] at hf'
    injection hf' with hfe
    subst hpe
    subst hfe
    rw [hfr] at hmti
    rw [resolve_mti_supplied e pts fr fp vs hcol hsup] at hmti
    injection hmti with hme
    rw [hM, ← hme]
    simp [lookupRegressor, List.find?]

/-- C2 witness: the amended statement at a concrete request. -/
theorem mti_supplied_used_verbatim_witness :
    resolve_mti_regressor engC [dPointMti 0 1 2, dPointMti 1 1 3]
        (some ⟨some [7], none⟩) 1 = Except.ok [("mti", [7])] ∧
      respMtiSupplied.futureRegressorsMti = [7] := by
  have h := mti_supplied_used_verbatim [dPointMti 0 1 2, dPointMti 1 1 3]
    ⟨some [7], none⟩ 1 [7] (by decide) rfl
  exact ⟨h.1 engC, h.2.2 engC reqMtiSupplied respMtiSupplied rfl rfl rfl
    predict_demand_reqMtiSupplied⟩

/-- C2 counterexample: a demand request declaring `inflation` together
with caller-supplied future values `[999]` succeeds, but the response's
`futureRegressors.inflation` is the engine projection `[5]`, not the
supplied values — the pipeline always re-projects inflation. -/
theorem inflation_supplied_values_ignored :
    reqInflation.futureRegressors = some ⟨none, some [999]⟩ ∧
      predict_demand engC reqInflation = ApiResult.ok respInflation ∧
      respInflation.futureRegressorsInflation = [5] ∧
      respInflation.futureRegressorsInflation ≠ [999] :=
  ⟨rfl, predict_demand_reqInflation, by decide, by decide⟩

/-- C3 (corrected, amended statement): on every successful demand
response, `debugInfo.generatedRegressors` equals
`debugInfo.regressorsUsed` — it lists every declared regressor whose
future values were resolved (one `future_regressors` entry per declared
column), not only the engine-projected ones. -/
theorem generated_regressors_lists_all_resolved (e : Engine) (req : DemandRequest)
    (resp : DemandResponse) (h : predict_demand e req = ApiResult.ok resp) :
    resp.generatedRegressors = resp.regressorsUsed :=
  predict_demand_ok_generated e req resp h

/-- C3 witness: the amended statement at a concrete successful run. -/
theorem generated_regressors_lists_all_resolved_witness :
    respMtiSupplied.generatedRegressors = respMtiSupplied.regressorsUsed :=
  generated_regressors_lists_all_resolved engC reqMtiSupplied respMtiSupplied
    predict_demand_reqMtiSupplied

/-- C3 counterexample: the MTI values are caller-supplied (no projection
happens for `mti`), yet `"mti"` still appears in
`debugInfo.generatedRegressors` of the successful response. -/
theorem generated_regressors_include_supplied :
    reqMtiSupplied.futureRegressors = some ⟨some [7], none⟩ ∧
      predict_demand engC reqMtiSupplied = ApiResult.ok respMtiSupplied ∧
      respMtiSupplied.futureRegressorsMti = [7] ∧
      respMtiSupplied.generatedRegressors = ["mti"] :=
  ⟨rfl, predict_demand_reqMtiSupplied, by decide, by decide⟩

/-- C5 (confirmed): every successful regressor projection returns a
future-value sequence of length exactly `periods`: the engine is fit on
the regressor sub-frame, `make_future_dataframe` re-emits the history
followed by the `periods` dates strictly after the last historical
timestamp, and only the rows strictly after that timestamp are kept. -/
theorem projected_regressor_horizon_length (e : Engine) (rows : List RegRow)
    (hasLocCol : Bool) (periods : Nat) (location_id : Option String) (vs : List ℚ)
    (h : predict_regressor e rows hasLocCol periods location_id = Except.ok vs) :
    vs.length = periods :=
  predict_regressor_length e rows hasLocCol periods location_id vs h

/-- C5 witness: a concrete projection over two history rows returns
exactly 4 values for a 4-step horizon. -/
theorem projected_regressor_horizon_length_witness :
    predict_regressor engC [⟨some 0, CellVal.num 1, none⟩, ⟨some 1, CellVal.num 2, none⟩]
        false 4 none = Except.ok [5, 5, 5, 5] ∧
      ([(5 : ℚ), 5, 5, 5]).length = 4 := by
  have hp : predict_regressor engC
      [⟨some 0, CellVal.num 1, none⟩, ⟨some 1, CellVal.num 2, none⟩] false 4 none =
      Except.ok [5, 5, 5, 5] := by decide
  exact ⟨hp, projected_regressor_horizon_length engC _ false 4 none _ hp⟩

/-- C4 (confirmed): density below 0.7 is a terminal 400 "Insufficient
data density" for the demand route (for every engine — no forecast is
produced), while the supplier route merely records the low-density warning
and still produces its forecasts (given the data suffices for the engine
fits, which need at least two cleaned, dated rows per metric). -/
theorem density_threshold_policy :
    (∀ (e : Engine) (req : DemandRequest) (pts : List HistoricalPoint) (fp : Nat)
        (lid mid : String),
      validate_demand_input req = [] →
      req.historicalData = FieldVal.val pts → req.futurePeriods = FieldVal.val fp →
      req.locationId = some lid → req.modelId = some mid →
      (pts.any (fun p => p.demand.isNull)) = false →
      (pts.any (fun p => p.demand.isNonNum)) = false →
      density pts.length (dsCol pts) < 7/10 →
      predict_demand e req = ApiResult.badRequest "Insufficient data density") ∧
    (∀ (e : Engine) (req : SupplierRequest) (pts : List HistoricalPoint) (fp : Nat)
        (sid : String),
      validate_supplier_performance_input req = [] →
      req.historicalData = FieldVal.val pts → req.futurePeriods = FieldVal.val fp →
      req.supplierId = FieldVal.val sid →
      ¬ (clean_metric_df "quality" (pts.map (fun p => (p.date, p.qualityRating)))).1.length < 2 →
      (clean_metric_df "quality" (pts.map (fun p => (p.date, p.qualityRating)))).1.any
        (fun r => r.1.isNone) = false →
      ¬ (clean_metric_df "lead time"
        (pts.map (fun p => (p.date, p.leadTimeReliability)))).1.length < 2 →
      (clean_metric_df "lead time" (pts.map (fun p => (p.date, p.leadTimeReliability)))).1.any
        (fun r => r.1.isNone) = false →
      density pts.length (dsCol pts) < 7/10 →
      ∃ resp : SupplierResponse, predict_supplier_performance e req = ApiResult.ok resp ∧
        "Low data density" ∈ resp.warnings ∧
        resp.qualityForecast.length = fp ∧ resp.leadTimeForecast.length = fp) := by
  constructor
  · intro e req pts fp lid mid hv hh hf hloc hmod hnull hnn hdens
    exact predict_demand_low_density e req pts fp lid mid hv hh hf hloc hmod hnull hnn hdens
  · intro e req pts fp sid hv hh hf hs hq2 hqds hl2 hlds hdens
    refine ⟨_, predict_supplier_ok e req pts fp sid ["Low data density"] hv hh hf hs
      (by rw [if_pos hdens]) hq2 hqds hl2 hlds, ?_, ?_, ?_⟩
    · simp
    · simp [make_future_dataframe_length]
    · simp [make_future_dataframe_length]

/-- C4 witness: a 2-point series 10 days apart (density 2/11) — rejected
by the demand route, warned about and forecast by the supplier route. -/
theorem density_threshold_policy_witness :
    predict_demand engC ⟨FieldVal.val [dPoint 0 1, dPoint 10 1], FieldVal.val 2, some "L",
        some "M", none⟩ = ApiResult.badRequest "Insufficient data density" ∧
      predict_supplier_performance engC reqSLow = ApiResult.ok respSLow ∧
      "Low data density" ∈ respSLow.warnings ∧ respSLow.qualityForecast.length = 2 := by
  have hdd : density ([dPoint 0 1, dPoint 10 1] : List HistoricalPoint).length
      (dsCol [dPoint 0 1, dPoint 10 1]) < 7/10 := by
    have h1 : listMax (dsCol [dPoint 0 1, dPoint 10 1]) = 10 := by decide
    have h2 : listMin (dsCol [dPoint 0 1, dPoint 10 1]) = 0 := by decide
    rw [density, h1, h2]
    norm_num
  have hsd : density ([sPoint 0 (CellVal.num 2) (CellVal.num 3),
      sPoint 10 (CellVal.num 2) (CellVal.num 3)] : List HistoricalPoint).length
      (dsCol [sPoint 0 (CellVal.num 2) (CellVal.num 3),
        sPoint 10 (CellVal.num 2) (CellVal.num 3)]) < 7/10 := by
    have h1 : listMax (dsCol [sPoint 0 (CellVal.num 2) (CellVal.num 3),
      sPoint 10 (CellVal.num 2) (CellVal.num 3)]) = 10 := by decide
    have h2 : listMin (dsCol [sPoint 0 (CellVal.num 2) (CellVal.num 3),
      sPoint 10 (CellVal.num 2) (CellVal.num 3)]) = 0 := by decide
    rw [density, h1, h2]
    norm_num
  obtain ⟨resp, hok, hw, hql, _⟩ := density_threshold_policy.2 engC reqSLow
    [sPoint 0 (CellVal.num 2) (CellVal.num 3), sPoint 10 (CellVal.num 2) (CellVal.num 3)]
    2 "S3" (by decide) rfl rfl rfl (by decide) (by decide) (by decide) (by decide) hsd
  rw [predict_supplier_reqSLow] at hok
  injection hok with hre
  subst hre
  exact ⟨density_threshold_policy.1 engC _ [dPoint 0 1, dPoint 10 1] 2 "L" "M"
    (by decide) rfl rfl rfl rfl (by decide) (by decide) hdd, predict_supplier_reqSLow, hw, hql⟩

/-- C6 (corrected, amended statement).  Both reported strengths always lie
in `[0, 1]` and are `0.0` whenever a standard deviation is undefined or
the combined forecast's is not positive, with no division error.  For the
demand route each equals `min(|std(component)/std(yhat)|, 1)`; for the
supplier route each per-branch strength equals
`min(1, |std(component)/std(yhat)|)` and the reported value is the
arithmetic mean of the quality and lead-time branch strengths — not
itself a single clamped ratio (see the counterexample). -/
theorem strength_metrics_definition :
    (∀ comp yhat : List ℚ, 0 ≤ demand_metadata_strength comp yhat ∧
      demand_metadata_strength comp yhat ≤ 1) ∧
    (∀ comp yhat : List ℚ,
      std_notnull comp = true → std_notnull yhat = true → 0 < sampleStd yhat →
      demand_metadata_strength comp yhat = min |sampleStd comp / sampleStd yhat| 1) ∧
    (∀ comp yhat : List ℚ,
      ¬ (std_notnull comp = true ∧ std_notnull yhat = true ∧ 0 < sampleStd yhat) →
      demand_metadata_strength comp yhat = 0) ∧
    (∀ qc qy lc ly : List ℚ, 0 ≤ supplier_metadata_strength qc qy lc ly ∧
      supplier_metadata_strength qc qy lc ly ≤ 1) ∧
    (∀ comp yhat : List ℚ,
      std_notnull comp = true → std_notnull yhat = true → 0 < sampleStd yhat →
      supplier_strength comp yhat = min 1 |sampleStd comp / sampleStd yhat|) ∧
    (∀ comp yhat : List ℚ,
      ¬ (std_notnull comp = true ∧ std_notnull yhat = true ∧ 0 < sampleStd yhat) →
      supplier_strength comp yhat = 0) ∧
    (∀ qc qy lc ly : List ℚ, supplier_metadata_strength qc qy lc ly =
      (supplier_strength qc qy + supplier_strength lc ly) / 2) := by
  refine ⟨fun comp yhat => ⟨demand_metadata_strength_nonneg comp yhat,
      demand_metadata_strength_le_one comp yhat⟩, ?_, ?_,
    fun qc qy lc ly => ⟨supplier_metadata_strength_nonneg qc qy lc ly,
      supplier_metadata_strength_le_one qc qy lc ly⟩, ?_, ?_, fun _ _ _ _ => rfl⟩
  · intro comp yhat h1 h2 h3
    rw [demand_metadata_strength, demand_strength, if_pos ⟨h1, h2, h3⟩]
  · intro comp yhat hng
    rw [demand_metadata_strength, demand_strength, if_neg hng]
    simp
  · intro comp yhat h1 h2 h3
    rw [supplier_strength, if_pos ⟨h1, h2, h3⟩]
  · intro comp yhat hng
    rw [supplier_strength, if_neg hng]

/-- C6 witness: the demand formula at a concrete column pair with a
positive, defined standard deviation. -/
theorem strength_metrics_definition_witness :
    0 < sampleStd [(0 : ℚ), 2] ∧
      demand_metadata_strength [(0 : ℚ), 2] [(0 : ℚ), 2] =
        min |sampleStd [(0 : ℚ), 2] / sampleStd [(0 : ℚ), 2]| 1 := by
  have hpos : 0 < sampleStd [(0 : ℚ), 2] := by
    rw [sampleStd_pos_iff]
    norm_num [varQ, meanQ]
  exact ⟨hpos, strength_metrics_definition.2.1 [(0 : ℚ), 2] [(0 : ℚ), 2]
    (by decide) (by decide) hpos⟩

/-- C6 counterexample: a successful supplier response whose two branch
strengths are 1 (quality: seasonal component equal to the combined
forecast) and 0 (lead time: constant seasonal component).  The reported
metadata value is their mean 1/2, which differs from every value the
claim's formula can produce here (the clamped ratios 1 and 0, and the
undefined-statistics fallback 0.0). -/
theorem supplier_strength_average_counterexample :
    predict_supplier_performance engSplit reqC6 = ApiResult.ok respC6 ∧
      supplier_strength (yearlyCol respC6.qualityDf) (yhatCol respC6.qualityDf) = 1 ∧
      supplier_strength (yearlyCol respC6.leadTimeDf) (yhatCol respC6.leadTimeDf) = 0 ∧
      supplier_metadata_strength (yearlyCol respC6.qualityDf) (yhatCol respC6.qualityDf)
        (yearlyCol respC6.leadTimeDf) (yhatCol respC6.leadTimeDf) = 1/2 ∧
      (1/2 : ℝ) ≠ 1 ∧ (1/2 : ℝ) ≠ 0 := by
  have hqy : yearlyCol respC6.qualityDf = [2, 3] := by decide
  have hqh : yhatCol respC6.qualityDf = [2, 3] := by decide
  have hly : yearlyCol respC6.leadTimeDf = [0, 0] := by decide
  have hlh : yhatCol respC6.leadTimeDf = [2, 3] := by decide
  have hpos : 0 < sampleStd [(2 : ℚ), 3] := by
    rw [sampleStd_pos_iff]
    norm_num [varQ, meanQ]
  have hzero : sampleStd [(0 : ℚ), 0] = 0 := by
    have hv : varQ [(0 : ℚ), 0] = 0 := by norm_num [varQ, meanQ]
    rw [sampleStd, hv]
    simp
  have hs1 : supplier_strength [(2 : ℚ), 3] [(2 : ℚ), 3] = 1 := by
    rw [supplier_strength, if_pos ⟨by decide, by decide, hpos⟩,
      div_self (ne_of_gt hpos), abs_one]
    simp
  have hs0 : supplier_strength [(0 : ℚ), 0] [(2 : ℚ), 3] = 0 := by
    rw [supplier_strength, if_pos ⟨by decide, by decide, hpos⟩, hzero, zero_div, abs_zero]
    simp
  refine ⟨predict_supplier_reqC6, ?_, ?_, ?_, by norm_num, by norm_num⟩
  · rw [hqy, hqh, hs1]
  · rw [hly, hlh, hs0]
  · rw [supplier_metadata_strength, hqy, hqh, hly, hlh, hs1, hs0]
    norm_num

/-- C7 (confirmed): gap detection counts exactly the consecutive pairs of
the sorted series whose delta exceeds 7 days — a 10-day pair is exactly
one gap, an everywhere-≤-7-days series has none — and gaps are only
recorded (in logs, modelled by `gapsRecorded`): with no gap-related
hypothesis at all, both routes still succeed. -/
theorem gap_detection_policy :
    (∀ l : List Int, countGaps l =
      ((l.zip l.tail).filter (fun p => decide (7 < p.2 - p.1))).length) ∧
    (∀ a b : Int, b - a = 10 → countGaps [a, b] = 1) ∧
    (∀ l : List Int, List.Chain' (fun a b => b - a ≤ 7) l → countGaps l = 0) ∧
    (∀ (e : Engine) (req : DemandRequest) (pts : List HistoricalPoint) (fp : Nat)
        (lid mid : String),
      validate_demand_input req = [] →
      req.historicalData = FieldVal.val pts → req.futurePeriods = FieldVal.val fp →
      req.locationId = some lid → req.modelId = some mid →
      (pts.any (fun p => p.demand.isNull)) = false →
      (pts.any (fun p => p.demand.isNonNum)) = false →
      ¬ density pts.length (dsCol pts) < 7/10 →
      hasMtiCol pts = false → hasInflationCol pts = false →
      ¬ pts.length < 2 → (pts.any (fun p => p.date.isNone)) = false →
      ∃ resp : DemandResponse, predict_demand e req = ApiResult.ok resp ∧
        resp.gapsRecorded = countGaps ((dsCol pts).insertionSort (· ≤ ·))) ∧
    (∀ (e : Engine) (req : SupplierRequest) (pts : List HistoricalPoint) (fp : Nat)
        (sid : String),
      validate_supplier_performance_input req = [] →
      req.historicalData = FieldVal.val pts → req.futurePeriods = FieldVal.val fp →
      req.supplierId = FieldVal.val sid →
      ¬ (clean_metric_df "quality" (pts.map (fun p => (p.date, p.qualityRating)))).1.length < 2 →
      (clean_metric_df "quality" (pts.map (fun p => (p.date, p.qualityRating)))).1.any
        (fun r => r.1.isNone) = false →
      ¬ (clean_metric_df "lead time"
        (pts.map (fun p => (p.date, p.leadTimeReliability)))).1.length < 2 →
      (clean_metric_df "lead time" (pts.map (fun p => (p.date, p.leadTimeReliability)))).1.any
        (fun r => r.1.isNone) = false →
      ∃ resp : SupplierResponse, predict_supplier_performance e req = ApiResult.ok resp ∧
        resp.gapsRecorded = countGaps ((dsCol pts).insertionSort (· ≤ ·))) := by
  refine ⟨countGaps_eq_filter_length, ?_, countGaps_of_chain, ?_, ?_⟩
  · intro a b hab
    show (if 7 < b - a then 1 else 0) + countGaps [b] = 1
    rw [hab]
    norm_num
    rfl
  · intro e req pts fp lid mid hv hh hf hloc hmod hnull hnn hdens hm hi h2 hdates
    exact ⟨_, predict_demand_ok e req pts fp lid mid [] [] hv hh hf hloc hmod hnull hnn hdens
      (resolve_mti_absent e pts req.futureRegressors fp hm)
      (resolve_inflation_absent e pts lid fp hi) h2 hdates
      (by simp [hm]) (by simp [hi]) rfl, rfl⟩
  · intro e req pts fp sid hv hh hf hs hq2 hqds hl2 hlds
    by_cases hd : density pts.length (dsCol pts) < 7/10
    · exact ⟨_, predict_supplier_ok e req pts fp sid ["Low data density"] hv hh hf hs
        (by rw [if_pos hd]) hq2 hqds hl2 hlds, rfl⟩
    · exact ⟨_, predict_supplier_ok e req pts fp sid [] hv hh hf hs
        (by rw [if_neg hd]) hq2 hqds hl2 hlds, rfl⟩

/-- C7 witness: a 22-point series with one 9-day jump — exactly one gap
recorded, request not rejected; and the two concrete spec scenarios. -/
theorem gap_detection_policy_witness :
    countGaps [(0 : Int), 10] = 1 ∧ countGaps [(0 : Int), 7, 14] = 0 ∧
      predict_demand engC reqGap = ApiResult.ok respGap ∧ respGap.gapsRecorded = 1 := by
  refine ⟨gap_detection_policy.2.1 0 10 (by norm_num), ?_, predict_demand_reqGap, ?_⟩
  · exact gap_detection_policy.2.2.1 [0, 7, 14] (by
      refine List.chain'_cons.mpr ⟨by norm_num, List.chain'_cons.mpr ⟨by norm_num, ?_⟩⟩
      exact List.chain'_singleton 14)
  · obtain ⟨resp, hok, hg⟩ := gap_detection_policy.2.2.2.1 engC reqGap gapPts 1 "L" "M"
      (by decide) rfl rfl rfl rfl (by decide) (by decide)
      (by
        have h1 : listMax (dsCol gapPts) = 29 := by decide
        have h2 : listMin (dsCol gapPts) = 0 := by decide
        have h3 : (gapPts.length : ℚ) = 22 := by decide
        rw [density, h1, h2, h3]
        norm_num)
      (by decide) (by decide) (by decide) (by decide)
    rw [predict_demand_reqGap] at hok
    injection hok with hre
    subst hre
    rw [hg]
    decide

/-- C8 (confirmed): every row of both forecasts of every successful
supplier response has `value`, `lower` and `upper` in `[0, 1]`. -/
theorem supplier_forecast_values_clamped (e : Engine) (req : SupplierRequest)
    (resp : SupplierResponse) (h : predict_supplier_performance e req = ApiResult.ok resp) :
    (∀ r ∈ resp.qualityForecast, 0 ≤ r.value ∧ r.value ≤ 1 ∧ 0 ≤ r.lower ∧ r.lower ≤ 1 ∧
      0 ≤ r.upper ∧ r.upper ≤ 1) ∧
    (∀ r ∈ resp.leadTimeForecast, 0 ≤ r.value ∧ r.value ≤ 1 ∧ 0 ≤ r.lower ∧ r.lower ≤ 1 ∧
      0 ≤ r.upper ∧ r.upper ≤ 1) :=
  predict_supplier_ok_clamped e req resp h

/-- C8 witness: the raw engine row (2, -1, 3) is returned as (1, 0, 1). -/
theorem supplier_forecast_values_clamped_witness :
    predict_supplier_performance engC reqS = ApiResult.ok respS ∧
      respS.qualityForecast.headD ⟨0, 0, 0, 0⟩ = ⟨2, 1, 0, 1⟩ ∧
      0 ≤ (respS.qualityForecast.headD ⟨0, 0, 0, 0⟩).value ∧
      (respS.qualityForecast.headD ⟨0, 0, 0, 0⟩).value ≤ 1 := by
  have h := supplier_forecast_values_clamped engC reqS respS predict_supplier_reqS
  have hm : respS.qualityForecast.headD ⟨0, 0, 0, 0⟩ ∈ respS.qualityForecast := by decide
  obtain ⟨h1, h2, _⟩ := h.1 _ hm
  exact ⟨predict_supplier_reqS, by decide, h1, h2⟩

/-- C9 (confirmed): a null (or missing) demand value is a terminal 400
"Missing demand values detected" and a non-numeric one a terminal 400
"Non-numeric demand values detected", for every engine — before any fit.
The supplier route instead cleans each metric column locally — keeping
exactly the numeric rows with their values unchanged — records a warning,
and continues: with at least two cleaned, dated rows per metric it still
returns a forecast of the full horizon. -/
theorem data_integrity_policy :
    (∀ (e : Engine) (req : DemandRequest) (pts : List HistoricalPoint) (fp : Nat)
        (lid mid : String),
      validate_demand_input req = [] →
      req.historicalData = FieldVal.val pts → req.futurePeriods = FieldVal.val fp →
      req.locationId = some lid → req.modelId = some mid →
      (pts.any (fun p => p.demand.isNull)) = true →
      predict_demand e req = ApiResult.badRequest "Missing demand values detected") ∧
    (∀ (e : Engine) (req : DemandRequest) (pts : List HistoricalPoint) (fp : Nat)
        (lid mid : String),
      validate_demand_input req = [] →
      req.historicalData = FieldVal.val pts → req.futurePeriods = FieldVal.val fp →
      req.locationId = some lid → req.modelId = some mid →
      (pts.any (fun p => p.demand.isNull)) = false →
      (pts.any (fun p => p.demand.isNonNum)) = true →
      predict_demand e req = ApiResult.badRequest "Non-numeric demand values detected") ∧
    (∀ (label : String) (rows : List (Option Int × CellVal)),
      (clean_metric_df label rows).1 = rows.filterMap
        (fun r => match r.2 with | CellVal.num q => some (r.1, q) | _ => none)) ∧
    (∀ (label : String) (rows : List (Option Int × CellVal)),
      rows.any (fun r => r.2.isNull) = true →
      ("Found null values in " ++ label ++ " data") ∈ (clean_metric_df label rows).2) ∧
    (∀ (label : String) (rows : List (Option Int × CellVal)),
      rows.any (fun r => r.2.isNull) = false → rows.any (fun r => r.2.isNonNum) = true →
      ("Found non-numeric values in " ++ label ++ " data") ∈ (clean_metric_df label rows).2) ∧
    (∀ (e : Engine) (req : SupplierRequest) (pts : List HistoricalPoint) (fp : Nat)
        (sid : String),
      validate_supplier_performance_input req = [] →
      req.historicalData = FieldVal.val pts → req.futurePeriods = FieldVal.val fp →
      req.supplierId = FieldVal.val sid →
      ¬ (clean_metric_df "quality" (pts.map (fun p => (p.date, p.qualityRating)))).1.length < 2 →
      (clean_metric_df "quality" (pts.map (fun p => (p.date, p.qualityRating)))).1.any
        (fun r => r.1.isNone) = false →
      ¬ (clean_metric_df "lead time"
        (pts.map (fun p => (p.date, p.leadTimeReliability)))).1.length < 2 →
      (clean_metric_df "lead time" (pts.map (fun p => (p.date, p.leadTimeReliability)))).1.any
        (fun r => r.1.isNone) = false →
      (pts.map (fun p => (p.date, p.qualityRating))).any (fun r => r.2.isNull) = true →
      ∃ resp : SupplierResponse, predict_supplier_performance e req = ApiResult.ok resp ∧
        "Found null values in quality data" ∈ resp.warnings ∧
        resp.qualityForecast.length = fp ∧ resp.leadTimeForecast.length = fp) := by
  refine ⟨?_, ?_, clean_metric_df_rows, clean_metric_df_warn_null,
    clean_metric_df_warn_nonnum, ?_⟩
  · intro e req pts fp lid mid hv hh hf hloc hmod hnull
    exact predict_demand_null_values e req pts fp lid mid hv hh hf hloc hmod hnull
  · intro e req pts fp lid mid hv hh hf hloc hmod hnull hnn
    exact predict_demand_nonnum_values e req pts fp lid mid hv hh hf hloc hmod hnull hnn
  · intro e req pts fp sid hv hh hf hs hq2 hqds hl2 hlds hnull
    have hwq := clean_metric_df_warn_null "quality"
      (pts.map (fun p => (p.date, p.qualityRating))) hnull
    by_cases hd : density pts.length (dsCol pts) < 7/10
    · refine ⟨_, predict_supplier_ok e req pts fp sid ["Low data density"] hv hh hf hs
        (by rw [if_pos hd]) hq2 hqds hl2 hlds, ?_, ?_, ?_⟩
      · simp only [List.mem_append]
        exact Or.inl (Or.inr hwq)
      · simp [make_future_dataframe_length]
      · simp [make_future_dataframe_length]
    · refine ⟨_, predict_supplier_ok e req pts fp sid [] hv hh hf hs
        (by rw [if_neg hd]) hq2 hqds hl2 hlds, ?_, ?_, ?_⟩
      · simp only [List.mem_append]
        exact Or.inl (Or.inr hwq)
      · simp [make_future_dataframe_length]
      · simp [make_future_dataframe_length]

/-- C9 witness: a demand request with one null demand value is rejected
with the missing-values error; a supplier request with one null quality
value succeeds, records the null-values warning, and returns full-length
forecasts. -/
theorem data_integrity_policy_witness :
    predict_demand engC ⟨FieldVal.val [dPoint 0 1,
        ⟨some 1, CellVal.null, CellVal.missing, CellVal.missing, CellVal.missing,
          CellVal.missing, none⟩], FieldVal.val 2, some "L", some "M", none⟩ =
      ApiResult.badRequest "Missing demand values detected" ∧
    predict_supplier_performance engC reqSNull = ApiResult.ok respSNull ∧
    "Found null values in quality data" ∈ respSNull.warnings ∧
    respSNull.qualityForecast.length = 2 := by
  obtain ⟨resp, hok, hw, hql, _⟩ := data_integrity_policy.2.2.2.2.2 engC reqSNull
    [sPoint 0 (CellVal.num 2) (CellVal.num 3), sPoint 1 (CellVal.num 2) (CellVal.num 3),
      sPoint 2 CellVal.null (CellVal.num 3)] 2 "S2"
    (by decide) rfl rfl rfl (by decide) (by decide) (by decide) (by decide) (by decide)
  rw [predict_supplier_reqSNull] at hok
  injection hok with hre
  subst hre
  exact ⟨data_integrity_policy.1 engC _ [dPoint 0 1,
    ⟨some 1, CellVal.null, CellVal.missing, CellVal.missing, CellVal.missing,
      CellVal.missing, none⟩] 2 "L" "M" (by decide) rfl rfl rfl rfl (by decide),
    predict_supplier_reqSNull, hw, hql⟩

/-- C10 (confirmed): the density statistic counts duplicate-timestamp
points individually — three same-day points give density 3 > 1, and eight
points over an 11-day span, seven of them on the same day, give density
8/11 ≥ 0.7, so the demand route's gate passes and the request succeeds
even though only 2 of the 11 calendar days in the span (2/11 < 0.7) have
any observation. -/
theorem density_counts_duplicate_dates :
    density 3 [0, 0, 0] = 3 ∧ (1 : ℚ) < density 3 [0, 0, 0] ∧
      density dupPts.length (dsCol dupPts) = 8/11 ∧
      ¬ density dupPts.length (dsCol dupPts) < 7/10 ∧
      ((dsCol dupPts).dedup.length : ℚ) /
          (((listMax (dsCol dupPts) - listMin (dsCol dupPts) : ℤ) : ℚ) + 1) = 2/11 ∧
      (2/11 : ℚ) < 7/10 ∧
      predict_demand engC reqDup = ApiResult.ok respDup := by
  have h1 : listMax (dsCol dupPts) = 10 := by decide
  have h2 : listMin (dsCol dupPts) = 0 := by decide
  have h3 : (dupPts.length : ℚ) = 8 := by decide
  have h4 : listMax [(0 : Int), 0, 0] = 0 := by decide
  have h5 : listMin [(0 : Int), 0, 0] = 0 := by decide
  have h6 : ((dsCol dupPts).dedup.length : ℚ) = 2 := by decide
  refine ⟨?_, ?_, ?_, ?_, ?_, by norm_num, predict_demand_reqDup⟩
  · rw [density, h4, h5]
    norm_num
  · rw [density, h4, h5]
    norm_num
  · rw [density, h1, h2, h3]
    norm_num
  · rw [density, h1, h2, h3]
    norm_num
  · rw [h1, h2, h6]
    norm_num

end Proph
